import Mathlib

/-!
Verification of the consultar-io API example scripts (`src/python/cnpj.py`,
`src/python/cpf.py`) against their natural-language specification.

The two scripts are thin HTTP clients: each builds an authenticated GET
request, maps HTTP status codes to human-readable errors, and (for the
organization case) pretty-prints the JSON response.  We embed the Python
code shallowly:

* JSON values become the inductive `Json`; Python truthiness becomes
  `Json.truthy`; dictionary subscripting (`d[k]`, raising `KeyError` on an
  absent key) becomes `getItem`.
* The HTTP layer is abstracted as an `HttpResponse` record carrying the
  status code, the raw body text, and the result of JSON-decoding the body
  (`none` when the body is not well-formed JSON).  `requests`'
  `raise_for_status` raises `HTTPError` exactly when the status is in
  [400, 600); this fact of the library is embedded in `consultar`.
* Python exceptions raised by the scripts become the inductive `PyExc`.
  The class hierarchy facts the scripts rely on are embedded in
  `PyExc.isValueError` / `PyExc.isRequestException`: a JSON decode error
  (`json.JSONDecodeError`, and equally `requests.exceptions.JSONDecodeError`)
  is a subclass of `ValueError`, `HTTPError` is a subclass of
  `RequestException`, and `KeyError` is neither.
* `print(...)` output is modelled as the list of printed lines (each
  `print` call contributes one element, embedded newlines kept verbatim).
  Fallible code returns `Except PyExc _`; on an error the lines printed
  before the exception are not modelled, since no claim refers to them.
-/

/-- JSON values, as returned by `response.json()`.  Numbers are modelled as
integers; no claim involves a fractional numeric field. -/
inductive Json where
  | null : Json
  | bool : Bool → Json
  | num : Int → Json
  | str : String → Json
  | arr : List Json → Json
  | obj : List (String × Json) → Json

/-- Python truthiness of a JSON value: `None`, `False`, `0`, `""`, `[]` and
`{}` are falsy, everything else is truthy. -/
def Json.truthy : Json → Bool
  | .null => false
  | .bool b => b
  | .num n => n != 0
  | .str s => !s.isEmpty
  | .arr xs => !xs.isEmpty
  | .obj fs => !fs.isEmpty

/-- Dictionary lookup: the value of the first field named `k`, if any. -/
def Json.getKey? (j : Json) (k : String) : Option Json :=
  match j with
  | .obj fs => fs.lookup k
  | _ => none

/-- The elements iterated by a Python `for` loop over a JSON array.  The
scripts only iterate values that are lists; other shapes yield no
elements here (the original would raise `TypeError`, a case no claim
exercises). -/
def Json.items : Json → List Json
  | .arr xs => xs
  | _ => []

/-- `str()` of a JSON value as interpolated by the scripts' f-strings.
The fields the scripts format are scalars; container values are shown
abbreviated, as no claim formats a container as a scalar field. -/
def Json.pyStr : Json → String
  | .null => "None"
  | .bool true => "True"
  | .bool false => "False"
  | .num n => toString n
  | .str s => s
  | .arr _ => "[...]"
  | .obj _ => "\x7b...\x7d"

/-- The exceptions the scripts can raise.  `valueError` covers the three
classified errors raised explicitly by `consultar`; `httpError` is the
re-raised `requests.exceptions.HTTPError`, carrying the response's status
and body text; `jsonDecodeError` is raised by `response.json()` on a
malformed body; `keyError` by dictionary subscripting on an absent key;
`requestException` covers network-level failures. -/
inductive PyExc where
  | valueError : String → PyExc
  | httpError : Nat → String → PyExc
  | jsonDecodeError : String → PyExc
  | keyError : String → PyExc
  | requestException : String → PyExc
deriving DecidableEq

/-- Whether the exception is caught by `except ValueError`.  The JSON
decode error is: `json.JSONDecodeError` subclasses `ValueError` in the
standard library, and `requests.exceptions.JSONDecodeError` inherits from
it as well.  `KeyError` subclasses `LookupError`, not `ValueError`. -/
def PyExc.isValueError : PyExc → Bool
  | .valueError _ => true
  | .jsonDecodeError _ => true
  | _ => false

/-- Whether the exception is caught by
`except requests.exceptions.RequestException`: `HTTPError` and the
network-level failures subclass it. -/
def PyExc.isRequestException : PyExc → Bool
  | .httpError _ _ => true
  | .requestException _ => true
  | _ => false

/-- `str(e)` for the exceptions as printed by the scripts' handlers. -/
def PyExc.pyStr : PyExc → String
  | .valueError m => m
  | .httpError _ m => m
  | .jsonDecodeError m => m
  | .keyError k => k
  | .requestException m => m

/-- An HTTP response as observed by the scripts: the status code, the raw
body text, and the JSON decoding of the body (`none` when the body is not
well-formed JSON). -/
structure HttpResponse where
  status : Nat
  text : String
  jsonVal : Option Json

/-- Modelled from the spec: the diagnostic message of the JSON decoder for
a malformed body.  The decoder is part of the Python standard library, not
of this repository; the claims depend only on the error's class, never on
its message text. -/
def jsonDecodeMsg : String := "Expecting value: line 1 column 1 (char 0)"

/-- The request headers built by both clients (`cnpj.py` lines 23-26,
`cpf.py` lines 23-26). -/
def apiHeaders (api_token : String) : List (String × String) :=
  [("Authorization", s!"Token {api_token}"), ("Content-Type", "application/json")]

/-- The endpoint and query parameters of `CNPJAPI.consultar`
(`cnpj.py` lines 42-43). -/
def cnpjRequest (base_url cnpj : String) : String × List (String × String) :=
  (s!"{base_url}/cnpj/consultar", [("cnpj", cnpj)])

/-- The endpoint and query parameters of `CPFAPI.consultar`
(`cpf.py` lines 43-44). -/
def cpfRequest (base_url cpf data_nascimento : String) : String × List (String × String) :=
  (s!"{base_url}/cpf/consultar", [("cpf", cpf), ("data_nascimento", data_nascimento)])

/-- `CNPJAPI.consultar` (`cnpj.py` lines 45-56), as a function of the HTTP
response to its GET request.  `response.raise_for_status()` raises
`HTTPError` exactly when the status code is in [400, 600); the except
clause then classifies 404, 403 and 400 into `ValueError`s and re-raises
any other `HTTPError`.  On a non-raising status, `response.json()` returns
the decoded body or raises a JSON decode error. -/
def CNPJAPI.consultar (r : HttpResponse) : Except PyExc Json :=
  if 400 ≤ r.status ∧ r.status < 600 then
    if r.status = 404 then .error (.valueError "CNPJ não encontrado")
    else if r.status = 403 then .error (.valueError "Erro de autenticação ou plano inativo")
    else if r.status = 400 then .error (.valueError "Requisição inválida")
    else .error (.httpError r.status r.text)
  else
    match r.jsonVal with
    | some j => .ok j
    | none => .error (.jsonDecodeError jsonDecodeMsg)

/-- `CPFAPI.consultar` (`cpf.py` lines 46-57): identical control flow to
the CNPJ client, with the CPF wording for the 404 error. -/
def CPFAPI.consultar (r : HttpResponse) : Except PyExc Json :=
  if 400 ≤ r.status ∧ r.status < 600 then
    if r.status = 404 then .error (.valueError "CPF não encontrado")
    else if r.status = 403 then .error (.valueError "Erro de autenticação ou plano inativo")
    else if r.status = 400 then .error (.valueError "Requisição inválida")
    else .error (.httpError r.status r.text)
  else
    match r.jsonVal with
    | some j => .ok j
    | none => .error (.jsonDecodeError jsonDecodeMsg)

/-- A Python function parameter: its name and whether it has a default. -/
structure PyParam where
  name : String
  hasDefault : Bool
deriving DecidableEq

/-- The parameters of `CPFAPI.consultar` after `self`
(`cpf.py` line 28: `def consultar(self, cpf, data_nascimento):`).
Neither parameter has a default value. -/
def CPFAPI.consultarSig : List PyParam :=
  [⟨"cpf", false⟩, ⟨"data_nascimento", false⟩]

/-- Python positional call binding: a call with `n` positional arguments
binds against a parameter list iff `n` does not exceed the arity and every
parameter left unfilled has a default; otherwise the call raises
`TypeError`. -/
def bindsPositional (sig : List PyParam) (n : Nat) : Bool :=
  n ≤ sig.length && (sig.drop n).all (fun p => p.hasDefault)

/-- Dictionary subscripting `d[k]`: the value if the key is present,
`KeyError` otherwise. -/
def getItem (j : Json) (k : String) : Except PyExc Json :=
  match j.getKey? k with
  | some v => .ok v
  | none => .error (.keyError k)

/-- The body of the secondary-activities loop (`cnpj.py` lines 107-109):
for each entry, print its code and description. -/
def formatCnaes : List Json → Except PyExc (List String)
  | [] => pure []
  | cnae :: rest => do
    let codigo ← getItem cnae "codigo"
    let descricao ← getItem cnae "descricao"
    let tail ← formatCnaes rest
    pure (s!"Código: {codigo.pyStr}" :: s!"Descrição: {descricao.pyStr}" :: tail)

/-- The body of the ownership loop for one entry (`cnpj.py` lines
114-120): five unconditional lines, then the age-bracket line printed only
when the (unconditionally accessed) age-bracket value is truthy. -/
def formatSocio (socio : Json) : Except PyExc (List String) := do
  let nome ← getItem socio "nome_qsa"
  let tipo ← getItem socio "tipo_qsa_descricao"
  let doc ← getItem socio "cpf_cnpj_qsa_formatado"
  let qualificacao ← getItem socio "qualificacao_qsa_descricao"
  let entrada ← getItem socio "data_entrada_qsa"
  let faixa ← getItem socio "faixa_etaria_qsa_descricao"
  pure ([s!"\nSócio: {nome.pyStr}", s!"Tipo: {tipo.pyStr}",
         s!"CPF/CNPJ: {doc.pyStr}", s!"Qualificação: {qualificacao.pyStr}",
         s!"Data de Entrada: {entrada.pyStr}"]
        ++ if faixa.truthy then [s!"Faixa Etária: {faixa.pyStr}"] else [])

/-- The ownership loop (`cnpj.py` lines 113-120). -/
def formatSocios : List Json → Except PyExc (List String)
  | [] => pure []
  | socio :: rest => do
    let here ← formatSocio socio
    let tail ← formatSocios rest
    pure (here ++ tail)

/-- Lines 90-92 of `cnpj.py`: `if resultado["ddd1"] and resultado["telefone1"]:`
followed by the two prints.  Python's `and` short-circuits, so
`telefone1` is accessed only when the `ddd1` value is truthy. -/
def contato1 (resultado : Json) : Except PyExc (List String) := do
  let ddd1 ← getItem resultado "ddd1"
  if ddd1.truthy then do
    let telefone1 ← getItem resultado "telefone1"
    pure (if telefone1.truthy then
            [s!"DDD: {ddd1.pyStr}", s!"Telefone: {telefone1.pyStr}"]
          else [])
  else pure []

/-- Lines 93-95 of `cnpj.py`: the second contact pair. -/
def contato2 (resultado : Json) : Except PyExc (List String) := do
  let ddd2 ← getItem resultado "ddd2"
  if ddd2.truthy then do
    let telefone2 ← getItem resultado "telefone2"
    pure (if telefone2.truthy then
            [s!"DDD 2: {ddd2.pyStr}", s!"Telefone 2: {telefone2.pyStr}"]
          else [])
  else pure []

/-- Lines 96-98 of `cnpj.py`: the fax pair. -/
def contato3 (resultado : Json) : Except PyExc (List String) := do
  let dddFax ← getItem resultado "ddd_fax"
  if dddFax.truthy then do
    let fax ← getItem resultado "fax"
    pure (if fax.truthy then
            [s!"DDD Fax: {dddFax.pyStr}", s!"Fax: {fax.pyStr}"]
          else [])
  else pure []

/-- Lines 105-109 of `cnpj.py`: the secondary-activities section, printed
only when the (unconditionally accessed) sequence is truthy. -/
def atividadesSecundarias (resultado : Json) : Except PyExc (List String) := do
  let listaCnae ← getItem resultado "lista_cnae_secundarios"
  if listaCnae.truthy then do
    let entries ← formatCnaes listaCnae.items
    pure ("\nAtividades Secundárias:" :: entries)
  else pure []

/-- Lines 111-120 of `cnpj.py`: the ownership section, printed only when
the (unconditionally accessed) sequence is truthy. -/
def quadroSocietario (resultado : Json) : Except PyExc (List String) := do
  let listaQsa ← getItem resultado "lista_qsa"
  if listaQsa.truthy then do
    let entries ← formatSocios listaQsa.items
    pure ("\nQuadro Societário:" :: entries)
  else pure []

/-- `format_cnpj_info` (`cnpj.py` lines 59-120), returning the printed
lines.  Key accesses happen in source order; in particular the number
companions `telefone1`/`telefone2`/`fax` are only accessed when their
area-code value is truthy (Python's short-circuiting `and`), and the
age-bracket key of every ownership entry is accessed unconditionally. -/
def format_cnpj_info (resultado : Json) : Except PyExc (List String) := do
  let cnpj_formatado ← getItem resultado "cnpj_formatado"
  let razao_social ← getItem resultado "razao_social"
  let nome_fantasia ← getItem resultado "nome_fantasia"
  let natureza ← getItem resultado "natureza_juridica_descricao"
  let capital ← getItem resultado "capital_social_formatado"
  let porte ← getItem resultado "porte_empresa_descricao"
  let matriz ← getItem resultado "matriz_filial_descricao"
  let situacao ← getItem resultado "situacao_cadastral_descricao"
  let dataSituacao ← getItem resultado "data_situacao_cadastral"
  let motivo ← getItem resultado "motivo_situacao_cadastral_descricao"
  let abertura ← getItem resultado "data_inicio_atividades"
  let tipoLogradouro ← getItem resultado "tipo_logradouro"
  let logradouro ← getItem resultado "logradouro"
  let numero ← getItem resultado "numero"
  let complemento ← getItem resultado "complemento"
  let bairro ← getItem resultado "bairro"
  let municipio ← getItem resultado "municipio_descricao"
  let uf ← getItem resultado "uf"
  let cep ← getItem resultado "cep"
  let c1 ← contato1 resultado
  let c2 ← contato2 resultado
  let c3 ← contato3 resultado
  let email ← getItem resultado "email"
  let cnaeCodigo ← getItem resultado "cnae_principal_codigo"
  let cnaeDescricao ← getItem resultado "cnae_principal_descricao"
  let secundarias ← atividadesSecundarias resultado
  let quadro ← quadroSocietario resultado
  pure (["\nInformações Básicas:",
         s!"CNPJ: {cnpj_formatado.pyStr}",
         s!"Razão Social: {razao_social.pyStr}",
         s!"Nome Fantasia: {nome_fantasia.pyStr}",
         s!"Natureza Jurídica: {natureza.pyStr}",
         s!"Capital Social: {capital.pyStr}",
         s!"Porte: {porte.pyStr}",
         s!"Matriz/Filial: {matriz.pyStr}",
         s!"Situação Cadastral: {situacao.pyStr}",
         s!"Data da Situação: {dataSituacao.pyStr}",
         s!"Motivo da Situação: {motivo.pyStr}",
         s!"Data de Abertura: {abertura.pyStr}",
         "\nEndereço:",
         s!"Tipo de Logradouro: {tipoLogradouro.pyStr}",
         s!"Logradouro: {logradouro.pyStr}",
         s!"Número: {numero.pyStr}",
         s!"Complemento: {complemento.pyStr}",
         s!"Bairro: {bairro.pyStr}",
         s!"Cidade: {municipio.pyStr}",
         s!"UF: {uf.pyStr}",
         s!"CEP: {cep.pyStr}",
         "\nContato:"]
        ++ c1 ++ c2 ++ c3
        ++ [s!"Email: {email.pyStr}",
            "\nAtividade Principal:",
            s!"Código CNAE: {cnaeCodigo.pyStr}",
            s!"Descrição CNAE: {cnaeDescricao.pyStr}"]
        ++ secundarias ++ quadro)

/-- The observable outcome of a script run: either a list of printed lines,
or termination by an unhandled exception (raw traceback). -/
inductive RunOutcome where
  | printed : List String → RunOutcome
  | crashed : PyExc → RunOutcome
deriving DecidableEq

/-- `cnpjMain` embeds `main` of `cnpj.py` (lines 123-144), as a function of the HTTP response
to its single GET request (the request is for the hardcoded identifier
`"42515236000100"` with token `"seu-token-aqui"`).  `ValueError`s and
`RequestException`s raised inside the try block are printed as one error
line; any other exception is unhandled and terminates the process.
Network-level failures, where no response exists, are outside this model;
no claim depends on them.  When `format_cnpj_info` raises after printing a
prefix of its lines, that prefix is not modelled (no claim refers to it). -/
def cnpjMain (r : HttpResponse) : RunOutcome :=
  match (do
      let resultado ← CNPJAPI.consultar r
      format_cnpj_info resultado : Except PyExc (List String)) with
  | .ok lines => .printed lines
  | .error e =>
    if e.isValueError then .printed [s!"Erro: {e.pyStr}"]
    else if e.isRequestException then .printed [s!"Erro na requisição: {e.pyStr}"]
    else .crashed e

/-- The hardcoded example identifier of `main` (`cnpj.py` line 132). -/
def mainCnpj : String := "42515236000100"

/-- Concrete values for the nineteen unconditionally printed top-level
fields, used by the witnesses and counterexamples below. -/
def camposBase : List (String × Json) :=
  [("cnpj_formatado", .str "42.515.236/0001-00"),
   ("razao_social", .str "EXEMPLO LTDA"),
   ("nome_fantasia", .str "EXEMPLO"),
   ("natureza_juridica_descricao", .str "Sociedade Empresária Limitada"),
   ("capital_social_formatado", .str "R$ 1.000,00"),
   ("porte_empresa_descricao", .str "Microempresa"),
   ("matriz_filial_descricao", .str "Matriz"),
   ("situacao_cadastral_descricao", .str "Ativa"),
   ("data_situacao_cadastral", .str "2021-07-20"),
   ("motivo_situacao_cadastral_descricao", .str "Sem motivo"),
   ("data_inicio_atividades", .str "2021-07-20"),
   ("tipo_logradouro", .str "Rua"),
   ("logradouro", .str "das Flores"),
   ("numero", .str "100"),
   ("complemento", .str "Sala 1"),
   ("bairro", .str "Centro"),
   ("municipio_descricao", .str "São Paulo"),
   ("uf", .str "SP"),
   ("cep", .str "01000-000")]

/-- Concrete values for the email and primary-activity fields. -/
def camposFinais : List (String × Json) :=
  [("email", .str "contato@exemplo.com"),
   ("cnae_principal_codigo", .str "4721-1/02"),
   ("cnae_principal_descricao", .str "Padaria e confeitaria")]

/-- Contact fields that are all present but empty. -/
def contatosVazios : List (String × Json) :=
  [("ddd1", .str ""), ("telefone1", .str ""),
   ("ddd2", .str ""), ("telefone2", .str ""),
   ("ddd_fax", .str ""), ("fax", .str "")]

/-- A result where the first contact pair is non-empty, the second pair is
empty, and the fax pair has an area code but an empty number. -/
def exemploC5 : Json := .obj (camposBase ++
  [("ddd1", .str "11"), ("telefone1", .str "5555-0001"),
   ("ddd2", .str ""), ("telefone2", .str ""),
   ("ddd_fax", .str "11"), ("fax", .str "")] ++ camposFinais ++
  [("lista_cnae_secundarios", .arr []), ("lista_qsa", .arr [])])

/-- A secondary-activity entry. -/
def entradaCnae : Json := .obj
  [("codigo", .str "5611-2/01"), ("descricao", .str "Restaurante")]

/-- A result whose secondary-activity sequence has exactly one entry. -/
def exemploC6 : Json := .obj (camposBase ++ contatosVazios ++ camposFinais ++
  [("lista_cnae_secundarios", .arr [entradaCnae]), ("lista_qsa", .arr [])])

/-- An ownership entry with the age-bracket field present. -/
def socioComFaixa : Json := .obj
  [("nome_qsa", .str "MARIA DA SILVA"),
   ("tipo_qsa_descricao", .str "Pessoa Física"),
   ("cpf_cnpj_qsa_formatado", .str "***.111.222-**"),
   ("qualificacao_qsa_descricao", .str "Sócio-Administrador"),
   ("data_entrada_qsa", .str "2020-01-01"),
   ("faixa_etaria_qsa_descricao", .str "31 a 40 anos")]

/-- An ownership entry from which the age-bracket key is absent. -/
def socioSemFaixa : Json := .obj
  [("nome_qsa", .str "MARIA DA SILVA"),
   ("tipo_qsa_descricao", .str "Pessoa Física"),
   ("cpf_cnpj_qsa_formatado", .str "***.111.222-**"),
   ("qualificacao_qsa_descricao", .str "Sócio-Administrador"),
   ("data_entrada_qsa", .str "2020-01-01")]

/-- A result whose single ownership entry carries the age-bracket field. -/
def exemploC8 : Json := .obj (camposBase ++ contatosVazios ++ camposFinais ++
  [("lista_cnae_secundarios", .arr []), ("lista_qsa", .arr [socioComFaixa])])

/-- A result whose single ownership entry lacks the age-bracket key. -/
def exemploSemFaixa : Json := .obj (camposBase ++ contatosVazios ++ camposFinais ++
  [("lista_cnae_secundarios", .arr []), ("lista_qsa", .arr [socioSemFaixa])])

/-- A result from which the `telefone1` key is absent while `ddd1` is
present but empty. -/
def exemploSemTelefone1 : Json := .obj (camposBase ++
  [("ddd1", .str ""),
   ("ddd2", .str ""), ("telefone2", .str ""),
   ("ddd_fax", .str ""), ("fax", .str "")] ++ camposFinais ++
  [("lista_cnae_secundarios", .arr []), ("lista_qsa", .arr [])])

/-- A result from which the `telefone1` key is absent while `ddd1` is
present and truthy. -/
def exemploSemTelefone1Ddd : Json := .obj (camposBase ++
  [("ddd1", .str "11"),
   ("ddd2", .str ""), ("telefone2", .str ""),
   ("ddd_fax", .str ""), ("fax", .str "")] ++ camposFinais ++
  [("lista_cnae_secundarios", .arr []), ("lista_qsa", .arr [])])

/-- The fixed top-level keys `format_cnpj_info` accesses unconditionally,
in access order: the nineteen basic/address keys, the three contact
area-code keys, the email and primary-activity keys and the two list
keys.  The number keys `telefone1`/`telefone2`/`fax` are deliberately not
here: they are accessed only behind a truthy area code. -/
def chavesFixas : List String :=
  ["cnpj_formatado", "razao_social", "nome_fantasia",
   "natureza_juridica_descricao", "capital_social_formatado",
   "porte_empresa_descricao", "matriz_filial_descricao",
   "situacao_cadastral_descricao", "data_situacao_cadastral",
   "motivo_situacao_cadastral_descricao", "data_inicio_atividades",
   "tipo_logradouro", "logradouro", "numero", "complemento", "bairro",
   "municipio_descricao", "uf", "cep", "ddd1", "ddd2", "ddd_fax", "email",
   "cnae_principal_codigo", "cnae_principal_descricao",
   "lista_cnae_secundarios", "lista_qsa"]
/-- Bind on `Except` reduces on a success value. -/
theorem exceptBindOk (a : α) (f : α → Except ε β) :
    (Except.ok a : Except ε α) >>= f = f a := rfl

/-- Bind on `Except` propagates an error. -/
theorem exceptBindErr (e : ε) (f : α → Except ε β) :
    (Except.error e : Except ε α) >>= f = .error e := rfl

/-- Pure on `Except` is `Except.ok`. -/
theorem exceptPure (a : α) : (pure a : Except ε α) = .ok a := rfl

/-- Evaluation of the first contact pair when both keys are present: the
two lines are produced exactly when both values are truthy. -/
theorem contato1_eq (resultado d t : Json)
    (hd : resultado.getKey? "ddd1" = some d)
    (ht : resultado.getKey? "telefone1" = some t) :
    contato1 resultado =
      .ok (if d.truthy && t.truthy then
             [s!"DDD: {d.pyStr}", s!"Telefone: {t.pyStr}"] else []) := by
  cases hdt : d.truthy <;> cases htt : t.truthy <;>
    simp [contato1, getItem, hd, ht, hdt, htt, exceptBindOk, exceptPure]

/-- Evaluation of the second contact pair when both keys are present. -/
theorem contato2_eq (resultado d t : Json)
    (hd : resultado.getKey? "ddd2" = some d)
    (ht : resultado.getKey? "telefone2" = some t) :
    contato2 resultado =
      .ok (if d.truthy && t.truthy then
             [s!"DDD 2: {d.pyStr}", s!"Telefone 2: {t.pyStr}"] else []) := by
  cases hdt : d.truthy <;> cases htt : t.truthy <;>
    simp [contato2, getItem, hd, ht, hdt, htt, exceptBindOk, exceptPure]

/-- Evaluation of the fax pair when both keys are present. -/
theorem contato3_eq (resultado d t : Json)
    (hd : resultado.getKey? "ddd_fax" = some d)
    (ht : resultado.getKey? "fax" = some t) :
    contato3 resultado =
      .ok (if d.truthy && t.truthy then
             [s!"DDD Fax: {d.pyStr}", s!"Fax: {t.pyStr}"] else []) := by
  cases hdt : d.truthy <;> cases htt : t.truthy <;>
    simp [contato3, getItem, hd, ht, hdt, htt, exceptBindOk, exceptPure]

/-- When the `ddd1` value is falsy, the `and` short-circuits: `telefone1`
is never accessed and no lines are produced. -/
theorem contato1_skip (resultado d : Json)
    (hd : resultado.getKey? "ddd1" = some d) (hdt : d.truthy = false) :
    contato1 resultado = .ok [] := by
  simp [contato1, getItem, hd, hdt, exceptBindOk, exceptPure]

/-- When the `ddd1` value is truthy and the `telefone1` key is absent, the
access raises `KeyError`. -/
theorem contato1_semTelefone (resultado d : Json)
    (hd : resultado.getKey? "ddd1" = some d) (hdt : d.truthy = true)
    (ht : resultado.getKey? "telefone1" = none) :
    contato1 resultado = .error (.keyError "telefone1") := by
  simp [contato1, getItem, hd, hdt, ht, exceptBindOk, exceptBindErr, exceptPure]

/-- Evaluation of the secondary-activities section given the sequence
value and the formatted entries. -/
theorem atividadesSecundarias_eq (resultado lc : Json) (cs : List String)
    (hl : resultado.getKey? "lista_cnae_secundarios" = some lc)
    (hcs : formatCnaes lc.items = .ok cs) :
    atividadesSecundarias resultado =
      .ok (if lc.truthy then "\nAtividades Secundárias:" :: cs else []) := by
  cases hlt : lc.truthy <;>
    simp [atividadesSecundarias, getItem, hl, hcs, hlt, exceptBindOk, exceptPure]

/-- Evaluation of the ownership section given the sequence value and the
formatted entries. -/
theorem quadroSocietario_eq (resultado lq : Json) (qs : List String)
    (hl : resultado.getKey? "lista_qsa" = some lq)
    (hqs : formatSocios lq.items = .ok qs) :
    quadroSocietario resultado =
      .ok (if lq.truthy then "\nQuadro Societário:" :: qs else []) := by
  cases hlt : lq.truthy <;>
    simp [quadroSocietario, getItem, hl, hqs, hlt, exceptBindOk, exceptPure]

/-- An exception inside the ownership loop propagates out of the section. -/
theorem quadroSocietario_err (resultado lq : Json) (e : PyExc)
    (hl : resultado.getKey? "lista_qsa" = some lq) (hlt : lq.truthy = true)
    (he : formatSocios lq.items = .error e) :
    quadroSocietario resultado = .error e := by
  simp [quadroSocietario, getItem, hl, hlt, he,
        exceptBindOk, exceptBindErr, exceptPure]

/-- Evaluation of one ownership entry with all six keys present: five
unconditional lines, then the age-bracket line exactly when its value is
truthy. -/
theorem formatSocio_eq (socio n t d q en fv : Json)
    (h₁ : socio.getKey? "nome_qsa" = some n)
    (h₂ : socio.getKey? "tipo_qsa_descricao" = some t)
    (h₃ : socio.getKey? "cpf_cnpj_qsa_formatado" = some d)
    (h₄ : socio.getKey? "qualificacao_qsa_descricao" = some q)
    (h₅ : socio.getKey? "data_entrada_qsa" = some en)
    (h₆ : socio.getKey? "faixa_etaria_qsa_descricao" = some fv) :
    formatSocio socio = .ok
      ([s!"\nSócio: {n.pyStr}", s!"Tipo: {t.pyStr}",
        s!"CPF/CNPJ: {d.pyStr}", s!"Qualificação: {q.pyStr}",
        s!"Data de Entrada: {en.pyStr}"]
       ++ if fv.truthy then [s!"Faixa Etária: {fv.pyStr}"] else []) := by
  cases hft : fv.truthy <;>
    simp [formatSocio, getItem, h₁, h₂, h₃, h₄, h₅, h₆, hft,
          exceptBindOk, exceptPure]

/-- An ownership entry lacking the age-bracket key raises `KeyError`: the
key is accessed unconditionally by the truthiness test. -/
theorem formatSocio_semFaixa (socio n t d q en : Json)
    (h₁ : socio.getKey? "nome_qsa" = some n)
    (h₂ : socio.getKey? "tipo_qsa_descricao" = some t)
    (h₃ : socio.getKey? "cpf_cnpj_qsa_formatado" = some d)
    (h₄ : socio.getKey? "qualificacao_qsa_descricao" = some q)
    (h₅ : socio.getKey? "data_entrada_qsa" = some en)
    (h₆ : socio.getKey? "faixa_etaria_qsa_descricao" = none) :
    formatSocio socio = .error (.keyError "faixa_etaria_qsa_descricao") := by
  simp [formatSocio, getItem, h₁, h₂, h₃, h₄, h₅, h₆,
        exceptBindOk, exceptBindErr, exceptPure]

/-- The ownership loop over a single entry yields that entry's lines. -/
theorem formatSocios_one (socio : Json) (ls : List String)
    (h : formatSocio socio = .ok ls) : formatSocios [socio] = .ok ls := by
  simp [formatSocios, h, exceptBindOk, exceptPure]

/-- The ownership loop over a single entry propagates the entry's error. -/
theorem formatSocios_one_err (socio : Json) (e : PyExc)
    (h : formatSocio socio = .error e) : formatSocios [socio] = .error e := by
  simp [formatSocios, h, exceptBindOk, exceptBindErr, exceptPure]

/-- Full evaluation of `format_cnpj_info` given the nineteen fixed field
values, the outcome of each conditional section, and the email and
primary-activity values. -/
theorem format_cnpj_info_unfold (resultado : Json)
    (v₁ v₂ v₃ v₄ v₅ v₆ v₇ v₈ v₉ v₁₀ v₁₁ v₁₂ v₁₃ v₁₄ v₁₅ v₁₆ v₁₇ v₁₈ v₁₉ : Json)
    (em cc cd : Json) (l₁ l₂ l₃ ls ql : List String)
    (h₁ : resultado.getKey? "cnpj_formatado" = some v₁)
    (h₂ : resultado.getKey? "razao_social" = some v₂)
    (h₃ : resultado.getKey? "nome_fantasia" = some v₃)
    (h₄ : resultado.getKey? "natureza_juridica_descricao" = some v₄)
    (h₅ : resultado.getKey? "capital_social_formatado" = some v₅)
    (h₆ : resultado.getKey? "porte_empresa_descricao" = some v₆)
    (h₇ : resultado.getKey? "matriz_filial_descricao" = some v₇)
    (h₈ : resultado.getKey? "situacao_cadastral_descricao" = some v₈)
    (h₉ : resultado.getKey? "data_situacao_cadastral" = some v₉)
    (h₁₀ : resultado.getKey? "motivo_situacao_cadastral_descricao" = some v₁₀)
    (h₁₁ : resultado.getKey? "data_inicio_atividades" = some v₁₁)
    (h₁₂ : resultado.getKey? "tipo_logradouro" = some v₁₂)
    (h₁₃ : resultado.getKey? "logradouro" = some v₁₃)
    (h₁₄ : resultado.getKey? "numero" = some v₁₄)
    (h₁₅ : resultado.getKey? "complemento" = some v₁₅)
    (h₁₆ : resultado.getKey? "bairro" = some v₁₆)
    (h₁₇ : resultado.getKey? "municipio_descricao" = some v₁₇)
    (h₁₈ : resultado.getKey? "uf" = some v₁₈)
    (h₁₉ : resultado.getKey? "cep" = some v₁₉)
    (hc1 : contato1 resultado = .ok l₁)
    (hc2 : contato2 resultado = .ok l₂)
    (hc3 : contato3 resultado = .ok l₃)
    (h₂₆ : resultado.getKey? "email" = some em)
    (h₂₇ : resultado.getKey? "cnae_principal_codigo" = some cc)
    (h₂₈ : resultado.getKey? "cnae_principal_descricao" = some cd)
    (hsec : atividadesSecundarias resultado = .ok ls)
    (hqsa : quadroSocietario resultado = .ok ql) :
    format_cnpj_info resultado = .ok (
      ["\nInformações Básicas:",
       s!"CNPJ: {v₁.pyStr}",
       s!"Razão Social: {v₂.pyStr}",
       s!"Nome Fantasia: {v₃.pyStr}",
       s!"Natureza Jurídica: {v₄.pyStr}",
       s!"Capital Social: {v₅.pyStr}",
       s!"Porte: {v₆.pyStr}",
       s!"Matriz/Filial: {v₇.pyStr}",
       s!"Situação Cadastral: {v₈.pyStr}",
       s!"Data da Situação: {v₉.pyStr}",
       s!"Motivo da Situação: {v₁₀.pyStr}",
       s!"Data de Abertura: {v₁₁.pyStr}",
       "\nEndereço:",
       s!"Tipo de Logradouro: {v₁₂.pyStr}",
       s!"Logradouro: {v₁₃.pyStr}",
       s!"Número: {v₁₄.pyStr}",
       s!"Complemento: {v₁₅.pyStr}",
       s!"Bairro: {v₁₆.pyStr}",
       s!"Cidade: {v₁₇.pyStr}",
       s!"UF: {v₁₈.pyStr}",
       s!"CEP: {v₁₉.pyStr}",
       "\nContato:"]
      ++ l₁ ++ l₂ ++ l₃
      ++ [s!"Email: {em.pyStr}",
          "\nAtividade Principal:",
          s!"Código CNAE: {cc.pyStr}",
          s!"Descrição CNAE: {cd.pyStr}"]
      ++ ls ++ ql) := by
  simp [format_cnpj_info, getItem,
        h₁, h₂, h₃, h₄, h₅, h₆, h₇, h₈, h₉, h₁₀, h₁₁, h₁₂, h₁₃, h₁₄, h₁₅,
        h₁₆, h₁₇, h₁₈, h₁₉, h₂₆, h₂₇, h₂₈, hc1, hc2, hc3, hsec, hqsa,
        exceptBindOk, exceptPure]

/-- An exception from the first contact pair propagates out of
`format_cnpj_info` once the nineteen preceding accesses succeed. -/
theorem format_cnpj_info_c1err (resultado : Json)
    (v₁ v₂ v₃ v₄ v₅ v₆ v₇ v₈ v₉ v₁₀ v₁₁ v₁₂ v₁₃ v₁₄ v₁₅ v₁₆ v₁₇ v₁₈ v₁₉ : Json)
    (e : PyExc)
    (h₁ : resultado.getKey? "cnpj_formatado" = some v₁)
    (h₂ : resultado.getKey? "razao_social" = some v₂)
    (h₃ : resultado.getKey? "nome_fantasia" = some v₃)
    (h₄ : resultado.getKey? "natureza_juridica_descricao" = some v₄)
    (h₅ : resultado.getKey? "capital_social_formatado" = some v₅)
    (h₆ : resultado.getKey? "porte_empresa_descricao" = some v₆)
    (h₇ : resultado.getKey? "matriz_filial_descricao" = some v₇)
    (h₈ : resultado.getKey? "situacao_cadastral_descricao" = some v₈)
    (h₉ : resultado.getKey? "data_situacao_cadastral" = some v₉)
    (h₁₀ : resultado.getKey? "motivo_situacao_cadastral_descricao" = some v₁₀)
    (h₁₁ : resultado.getKey? "data_inicio_atividades" = some v₁₁)
    (h₁₂ : resultado.getKey? "tipo_logradouro" = some v₁₂)
    (h₁₃ : resultado.getKey? "logradouro" = some v₁₃)
    (h₁₄ : resultado.getKey? "numero" = some v₁₄)
    (h₁₅ : resultado.getKey? "complemento" = some v₁₅)
    (h₁₆ : resultado.getKey? "bairro" = some v₁₆)
    (h₁₇ : resultado.getKey? "municipio_descricao" = some v₁₇)
    (h₁₈ : resultado.getKey? "uf" = some v₁₈)
    (h₁₉ : resultado.getKey? "cep" = some v₁₉)
    (hc1 : contato1 resultado = .error e) :
    format_cnpj_info resultado = .error e := by
  simp [format_cnpj_info, getItem,
        h₁, h₂, h₃, h₄, h₅, h₆, h₇, h₈, h₉, h₁₀, h₁₁, h₁₂, h₁₃, h₁₄, h₁₅,
        h₁₆, h₁₇, h₁₈, h₁₉, hc1,
        exceptBindOk, exceptBindErr, exceptPure]

/-- An exception from the ownership section propagates out of
`format_cnpj_info` once everything before it succeeds. -/
theorem format_cnpj_info_qsaErr (resultado : Json)
    (v₁ v₂ v₃ v₄ v₅ v₆ v₇ v₈ v₉ v₁₀ v₁₁ v₁₂ v₁₃ v₁₄ v₁₅ v₁₆ v₁₇ v₁₈ v₁₉ : Json)
    (em cc cd : Json) (l₁ l₂ l₃ ls : List String) (e : PyExc)
    (h₁ : resultado.getKey? "cnpj_formatado" = some v₁)
    (h₂ : resultado.getKey? "razao_social" = some v₂)
    (h₃ : resultado.getKey? "nome_fantasia" = some v₃)
    (h₄ : resultado.getKey? "natureza_juridica_descricao" = some v₄)
    (h₅ : resultado.getKey? "capital_social_formatado" = some v₅)
    (h₆ : resultado.getKey? "porte_empresa_descricao" = some v₆)
    (h₇ : resultado.getKey? "matriz_filial_descricao" = some v₇)
    (h₈ : resultado.getKey? "situacao_cadastral_descricao" = some v₈)
    (h₉ : resultado.getKey? "data_situacao_cadastral" = some v₉)
    (h₁₀ : resultado.getKey? "motivo_situacao_cadastral_descricao" = some v₁₀)
    (h₁₁ : resultado.getKey? "data_inicio_atividades" = some v₁₁)
    (h₁₂ : resultado.getKey? "tipo_logradouro" = some v₁₂)
    (h₁₃ : resultado.getKey? "logradouro" = some v₁₃)
    (h₁₄ : resultado.getKey? "numero" = some v₁₄)
    (h₁₅ : resultado.getKey? "complemento" = some v₁₅)
    (h₁₆ : resultado.getKey? "bairro" = some v₁₆)
    (h₁₇ : resultado.getKey? "municipio_descricao" = some v₁₇)
    (h₁₈ : resultado.getKey? "uf" = some v₁₈)
    (h₁₉ : resultado.getKey? "cep" = some v₁₉)
    (hc1 : contato1 resultado = .ok l₁)
    (hc2 : contato2 resultado = .ok l₂)
    (hc3 : contato3 resultado = .ok l₃)
    (h₂₆ : resultado.getKey? "email" = some em)
    (h₂₇ : resultado.getKey? "cnae_principal_codigo" = some cc)
    (h₂₈ : resultado.getKey? "cnae_principal_descricao" = some cd)
    (hsec : atividadesSecundarias resultado = .ok ls)
    (hqsa : quadroSocietario resultado = .error e) :
    format_cnpj_info resultado = .error e := by
  simp [format_cnpj_info, getItem,
        h₁, h₂, h₃, h₄, h₅, h₆, h₇, h₈, h₉, h₁₀, h₁₁, h₁₂, h₁₃, h₁₄, h₁₅,
        h₁₆, h₁₇, h₁₈, h₁₉, h₂₆, h₂₇, h₂₈, hc1, hc2, hc3, hsec, hqsa,
        exceptBindOk, exceptBindErr, exceptPure]

/-- A missing `ddd1` key raises `KeyError` before any short-circuiting. -/
theorem contato1_semDdd (resultado : Json)
    (hd : resultado.getKey? "ddd1" = none) :
    contato1 resultado = .error (.keyError "ddd1") := by
  simp [contato1, getItem, hd, exceptBindErr]

/-- A missing `ddd2` key raises `KeyError` before any short-circuiting. -/
theorem contato2_semDdd (resultado : Json)
    (hd : resultado.getKey? "ddd2" = none) :
    contato2 resultado = .error (.keyError "ddd2") := by
  simp [contato2, getItem, hd, exceptBindErr]

/-- A missing `ddd_fax` key raises `KeyError` before any short-circuiting. -/
theorem contato3_semDdd (resultado : Json)
    (hd : resultado.getKey? "ddd_fax" = none) :
    contato3 resultado = .error (.keyError "ddd_fax") := by
  simp [contato3, getItem, hd, exceptBindErr]

/-- When the `ddd2` value is falsy, the `and` short-circuits: `telefone2`
is never accessed and no lines are produced. -/
theorem contato2_skip (resultado d : Json)
    (hd : resultado.getKey? "ddd2" = some d) (hdt : d.truthy = false) :
    contato2 resultado = .ok [] := by
  simp [contato2, getItem, hd, hdt, exceptBindOk, exceptPure]

/-- When the `ddd_fax` value is falsy, the `and` short-circuits: `fax` is
never accessed and no lines are produced. -/
theorem contato3_skip (resultado d : Json)
    (hd : resultado.getKey? "ddd_fax" = some d) (hdt : d.truthy = false) :
    contato3 resultado = .ok [] := by
  simp [contato3, getItem, hd, hdt, exceptBindOk, exceptPure]

/-- When the `ddd2` value is truthy and the `telefone2` key is absent,
the access raises `KeyError`. -/
theorem contato2_semTelefone (resultado d : Json)
    (hd : resultado.getKey? "ddd2" = some d) (hdt : d.truthy = true)
    (ht : resultado.getKey? "telefone2" = none) :
    contato2 resultado = .error (.keyError "telefone2") := by
  simp [contato2, getItem, hd, hdt, ht, exceptBindOk, exceptBindErr, exceptPure]

/-- When the `ddd_fax` value is truthy and the `fax` key is absent, the
access raises `KeyError`. -/
theorem contato3_semFax (resultado d : Json)
    (hd : resultado.getKey? "ddd_fax" = some d) (hdt : d.truthy = true)
    (ht : resultado.getKey? "fax" = none) :
    contato3 resultado = .error (.keyError "fax") := by
  simp [contato3, getItem, hd, hdt, ht, exceptBindOk, exceptBindErr, exceptPure]

/-- An exception from the second contact pair propagates out of
`format_cnpj_info` once everything before it succeeds. -/
theorem format_cnpj_info_c2err (resultado : Json)
    (v₁ v₂ v₃ v₄ v₅ v₆ v₇ v₈ v₉ v₁₀ v₁₁ v₁₂ v₁₃ v₁₄ v₁₅ v₁₆ v₁₇ v₁₈ v₁₉ : Json)
    (l₁ : List String) (e : PyExc)
    (h₁ : resultado.getKey? "cnpj_formatado" = some v₁)
    (h₂ : resultado.getKey? "razao_social" = some v₂)
    (h₃ : resultado.getKey? "nome_fantasia" = some v₃)
    (h₄ : resultado.getKey? "natureza_juridica_descricao" = some v₄)
    (h₅ : resultado.getKey? "capital_social_formatado" = some v₅)
    (h₆ : resultado.getKey? "porte_empresa_descricao" = some v₆)
    (h₇ : resultado.getKey? "matriz_filial_descricao" = some v₇)
    (h₈ : resultado.getKey? "situacao_cadastral_descricao" = some v₈)
    (h₉ : resultado.getKey? "data_situacao_cadastral" = some v₉)
    (h₁₀ : resultado.getKey? "motivo_situacao_cadastral_descricao" = some v₁₀)
    (h₁₁ : resultado.getKey? "data_inicio_atividades" = some v₁₁)
    (h₁₂ : resultado.getKey? "tipo_logradouro" = some v₁₂)
    (h₁₃ : resultado.getKey? "logradouro" = some v₁₃)
    (h₁₄ : resultado.getKey? "numero" = some v₁₄)
    (h₁₅ : resultado.getKey? "complemento" = some v₁₅)
    (h₁₆ : resultado.getKey? "bairro" = some v₁₆)
    (h₁₇ : resultado.getKey? "municipio_descricao" = some v₁₇)
    (h₁₈ : resultado.getKey? "uf" = some v₁₈)
    (h₁₉ : resultado.getKey? "cep" = some v₁₉)
    (hc1 : contato1 resultado = .ok l₁)
    (hc2 : contato2 resultado = .error e) :
    format_cnpj_info resultado = .error e := by
  simp [format_cnpj_info, getItem,
        h₁, h₂, h₃, h₄, h₅, h₆, h₇, h₈, h₉, h₁₀, h₁₁, h₁₂, h₁₃, h₁₄, h₁₅,
        h₁₆, h₁₇, h₁₈, h₁₉, hc1, hc2,
        exceptBindOk, exceptBindErr, exceptPure]

/-- An exception from the fax pair propagates out of `format_cnpj_info`
once everything before it succeeds. -/
theorem format_cnpj_info_c3err (resultado : Json)
    (v₁ v₂ v₃ v₄ v₅ v₆ v₇ v₈ v₉ v₁₀ v₁₁ v₁₂ v₁₃ v₁₄ v₁₅ v₁₆ v₁₇ v₁₈ v₁₉ : Json)
    (l₁ l₂ : List String) (e : PyExc)
    (h₁ : resultado.getKey? "cnpj_formatado" = some v₁)
    (h₂ : resultado.getKey? "razao_social" = some v₂)
    (h₃ : resultado.getKey? "nome_fantasia" = some v₃)
    (h₄ : resultado.getKey? "natureza_juridica_descricao" = some v₄)
    (h₅ : resultado.getKey? "capital_social_formatado" = some v₅)
    (h₆ : resultado.getKey? "porte_empresa_descricao" = some v₆)
    (h₇ : resultado.getKey? "matriz_filial_descricao" = some v₇)
    (h₈ : resultado.getKey? "situacao_cadastral_descricao" = some v₈)
    (h₉ : resultado.getKey? "data_situacao_cadastral" = some v₉)
    (h₁₀ : resultado.getKey? "motivo_situacao_cadastral_descricao" = some v₁₀)
    (h₁₁ : resultado.getKey? "data_inicio_atividades" = some v₁₁)
    (h₁₂ : resultado.getKey? "tipo_logradouro" = some v₁₂)
    (h₁₃ : resultado.getKey? "logradouro" = some v₁₃)
    (h₁₄ : resultado.getKey? "numero" = some v₁₄)
    (h₁₅ : resultado.getKey? "complemento" = some v₁₅)
    (h₁₆ : resultado.getKey? "bairro" = some v₁₆)
    (h₁₇ : resultado.getKey? "municipio_descricao" = some v₁₇)
    (h₁₈ : resultado.getKey? "uf" = some v₁₈)
    (h₁₉ : resultado.getKey? "cep" = some v₁₉)
    (hc1 : contato1 resultado = .ok l₁)
    (hc2 : contato2 resultado = .ok l₂)
    (hc3 : contato3 resultado = .error e) :
    format_cnpj_info resultado = .error e := by
  simp [format_cnpj_info, getItem,
        h₁, h₂, h₃, h₄, h₅, h₆, h₇, h₈, h₉, h₁₀, h₁₁, h₁₂, h₁₃, h₁₄, h₁₅,
        h₁₆, h₁₇, h₁₈, h₁₉, hc1, hc2, hc3,
        exceptBindOk, exceptBindErr, exceptPure]

/-- Inversion: a successful bind on `Except` means the first computation
succeeded and the continuation succeeded on its value. -/
theorem exceptBindOkInv (x : Except ε α) (f : α → Except ε β) (b : β)
    (h : (x >>= f) = .ok b) : ∃ a, x = .ok a ∧ f a = .ok b := by
  cases x with
  | ok a => exact ⟨a, rfl, h⟩
  | error e => exact absurd h (by simp [exceptBindErr])

/-- A successful subscript access means the key maps to that value. -/
theorem getItem_ok (j : Json) (k : String) (v : Json)
    (h : getItem j k = .ok v) : j.getKey? k = some v := by
  unfold getItem at h
  cases ho : j.getKey? k with
  | some w =>
    rw [ho] at h
    simp at h
    rw [h]

  | none =>
    rw [ho] at h
    simp at h

/-- C1: for every HTTP response with status 404, 403 or 400, the lookup
operation of both clients raises exactly the corresponding classified
`ValueError` — `CNPJ não encontrado` / `CPF não encontrado` for 404,
`Erro de autenticação ou plano inativo` for 403, `Requisição inválida`
for 400 — and no other error. -/
theorem claim1_classified_errors (r : HttpResponse) :
    (r.status = 404 →
      CNPJAPI.consultar r = .error (.valueError "CNPJ não encontrado") ∧
      CPFAPI.consultar r = .error (.valueError "CPF não encontrado")) ∧
    (r.status = 403 →
      CNPJAPI.consultar r =
        .error (.valueError "Erro de autenticação ou plano inativo") ∧
      CPFAPI.consultar r =
        .error (.valueError "Erro de autenticação ou plano inativo")) ∧
    (r.status = 400 →
      CNPJAPI.consultar r = .error (.valueError "Requisição inválida") ∧
      CPFAPI.consultar r = .error (.valueError "Requisição inválida")) := by
  refine ⟨fun h => ⟨?_, ?_⟩, fun h => ⟨?_, ?_⟩, fun h => ⟨?_, ?_⟩⟩ <;>
    simp [CNPJAPI.consultar, CPFAPI.consultar, h]

/-- Witness for C1 at concrete 404 and 403 responses. -/
theorem claim1_witness :
    CNPJAPI.consultar ⟨404, "", none⟩ =
      .error (.valueError "CNPJ não encontrado") ∧
    CPFAPI.consultar ⟨403, "", none⟩ =
      .error (.valueError "Erro de autenticação ou plano inativo") :=
  ⟨((claim1_classified_errors ⟨404, "", none⟩).1 rfl).1,
   ((claim1_classified_errors ⟨403, "", none⟩).2.1 rfl).2⟩

/-- C2: for every 2xx response whose body decodes as JSON, both lookup
operations return that decoded body itself — structurally unmodified —
and raise no error. -/
theorem claim2_success_returns_body (r : HttpResponse) (j : Json)
    (h₁ : 200 ≤ r.status) (h₂ : r.status ≤ 299) (hj : r.jsonVal = some j) :
    CNPJAPI.consultar r = .ok j ∧ CPFAPI.consultar r = .ok j := by
  have hns : ¬ (400 ≤ r.status ∧ r.status < 600) := by omega
  constructor <;> simp [CNPJAPI.consultar, CPFAPI.consultar, hns, hj]

/-- Witness for C2 at a concrete 200 response with an empty JSON object. -/
theorem claim2_witness :
    CNPJAPI.consultar ⟨200, "\x7b\x7d", some (.obj [])⟩ = .ok (.obj []) ∧
    CPFAPI.consultar ⟨200, "\x7b\x7d", some (.obj [])⟩ = .ok (.obj []) :=
  claim2_success_returns_body ⟨200, "\x7b\x7d", some (.obj [])⟩ (.obj [])
    (by decide) (by decide) rfl

/-- Counterexample to C3: a 301 response is neither 2xx nor in
{404, 403, 400}, yet `consultar` does not surface any error — Python's
`raise_for_status` only raises for statuses in [400, 600), so the body is
decoded and returned as a success. -/
theorem claim3_counterexample :
    (¬ (200 ≤ 301 ∧ 301 ≤ 299)) ∧ 301 ≠ 404 ∧ 301 ≠ 403 ∧ 301 ≠ 400 ∧
    CNPJAPI.consultar ⟨301, "corpo", some (.obj [("a", .null)])⟩ =
      .ok (.obj [("a", .null)]) :=
  ⟨by omega, by decide, by decide, by decide, rfl⟩

/-- C3 amended: for every response whose status is in [400, 600) and not
in {404, 403, 400}, both lookups surface the re-raised generic HTTP error
carrying the original status and body; a non-2xx status outside [400, 600)
(an informational or redirect status) raises nothing and is treated as
success. -/
theorem claim3_transport_failure (r : HttpResponse)
    (h₄ : 400 ≤ r.status) (h₆ : r.status < 600)
    (n₄ : r.status ≠ 404) (n₃ : r.status ≠ 403) (n₀ : r.status ≠ 400) :
    CNPJAPI.consultar r = .error (.httpError r.status r.text) ∧
    CPFAPI.consultar r = .error (.httpError r.status r.text) := by
  constructor <;>
    simp [CNPJAPI.consultar, CPFAPI.consultar, h₄, h₆, n₄, n₃, n₀]

/-- Witness for the amended C3 at a concrete 500 response. -/
theorem claim3_witness :
    CNPJAPI.consultar ⟨500, "erro interno", none⟩ =
      .error (.httpError 500 "erro interno") ∧
    CPFAPI.consultar ⟨500, "erro interno", none⟩ =
      .error (.httpError 500 "erro interno") :=
  claim3_transport_failure ⟨500, "erro interno", none⟩
    (by decide) (by decide) (by decide) (by decide) (by decide)

/-- C4: the entry point queries the hardcoded identifier
`42515236000100`; when the response to that request has status 403,
the run prints exactly the single line
`Erro: Erro de autenticação ou plano inativo` and nothing else,
whatever the response body. -/
theorem claim4_e2e_403 (text : String) (jv : Option Json) :
    mainCnpj = "42515236000100" ∧
    cnpjMain ⟨403, text, jv⟩ =
      .printed ["Erro: Erro de autenticação ou plano inativo"] :=
  ⟨rfl, rfl⟩

/-- Witness for C4 at a concrete 403 response. -/
theorem claim4_witness :
    mainCnpj = "42515236000100" ∧
    cnpjMain ⟨403, "Forbidden", none⟩ =
      .printed ["Erro: Erro de autenticação ou plano inativo"] :=
  claim4_e2e_403 "Forbidden" none

/-- Counterexample to C7: `CPFAPI.consultar` declares `cpf` and
`data_nascimento` with no default for either, so a call supplying only
the identifier does not bind — Python raises `TypeError`.  The birth date
is not optional. -/
theorem claim7_counterexample :
    bindsPositional CPFAPI.consultarSig 1 = false := by decide

/-- C7 amended: the birth date is a required second parameter of
`CPFAPI.consultar`: a call binds with both the identifier and the birth
date, not with the identifier alone, and the query parameters always
carry `data_nascimento`. -/
theorem claim7_birth_date_required :
    bindsPositional CPFAPI.consultarSig 2 = true ∧
    bindsPositional CPFAPI.consultarSig 1 = false ∧
    (cpfRequest "https://consultar.io/api/v1" "87135740009" "1990-01-01").2 =
      [("cpf", "87135740009"), ("data_nascimento", "1990-01-01")] :=
  ⟨by decide, by decide, rfl⟩

/-- Counterexample to C9: a 2xx response with a malformed body does not
terminate the process with a raw diagnostic — the JSON decode error is a
`ValueError` subclass, so the top-level `except ValueError` handler
catches it and the run prints an `Erro:` line. -/
theorem claim9_counterexample :
    cnpjMain ⟨200, "isto não é JSON", none⟩ =
      .printed [s!"Erro: {jsonDecodeMsg}"] := rfl

/-- C9 amended: when the response is 2xx but its body is not well-formed
JSON, the resulting error is indeed not one of the classified categories
at the client boundary, but it is a `ValueError` subclass, so `main`'s
first handler catches it and prints an `Erro:` line; the process does not
terminate with a raw diagnostic. -/
theorem claim9_malformed_json_caught (r : HttpResponse)
    (h₁ : 200 ≤ r.status) (h₂ : r.status ≤ 299) (hb : r.jsonVal = none) :
    CNPJAPI.consultar r = .error (.jsonDecodeError jsonDecodeMsg) ∧
    (PyExc.jsonDecodeError jsonDecodeMsg).isValueError = true ∧
    cnpjMain r = .printed [s!"Erro: {jsonDecodeMsg}"] := by
  have hns : ¬ (400 ≤ r.status ∧ r.status < 600) := by omega
  refine ⟨by simp [CNPJAPI.consultar, hns, hb], rfl, ?_⟩
  simp [cnpjMain, CNPJAPI.consultar, hns, hb, PyExc.isValueError,
        PyExc.pyStr, exceptBindErr]

/-- Witness for the amended C9 at a concrete 204 response. -/
theorem claim9_witness :
    CNPJAPI.consultar ⟨204, "sem corpo", none⟩ =
      .error (.jsonDecodeError jsonDecodeMsg) ∧
    (PyExc.jsonDecodeError jsonDecodeMsg).isValueError = true ∧
    cnpjMain ⟨204, "sem corpo", none⟩ = .printed [s!"Erro: {jsonDecodeMsg}"] :=
  claim9_malformed_json_caught ⟨204, "sem corpo", none⟩
    (by decide) (by decide) rfl

/-- C5: for every result mapping holding all fixed keys, each contact
pair contributes its two lines — area code first, then number — exactly
when both companion values are truthy (first conjunct, which covers phone
1, phone 2 and fax uniformly).  In particular, when `ddd1` and `telefone1`
are both falsy neither the DDD nor the Telefone line appears (second
conjunct), and when both are truthy the DDD line is immediately followed
by the Telefone line (third conjunct). -/
theorem claim5_contact_pairs (resultado : Json)
    {v₁ v₂ v₃ v₄ v₅ v₆ v₇ v₈ v₉ v₁₀ v₁₁ v₁₂ v₁₃ v₁₄ v₁₅ v₁₆ v₁₇ v₁₈ v₁₉ : Json}
    {d₁ t₁ d₂ t₂ df fx em cc cd lc lq : Json} {cs qs : List String}
    (h₁ : resultado.getKey? "cnpj_formatado" = some v₁)
    (h₂ : resultado.getKey? "razao_social" = some v₂)
    (h₃ : resultado.getKey? "nome_fantasia" = some v₃)
    (h₄ : resultado.getKey? "natureza_juridica_descricao" = some v₄)
    (h₅ : resultado.getKey? "capital_social_formatado" = some v₅)
    (h₆ : resultado.getKey? "porte_empresa_descricao" = some v₆)
    (h₇ : resultado.getKey? "matriz_filial_descricao" = some v₇)
    (h₈ : resultado.getKey? "situacao_cadastral_descricao" = some v₈)
    (h₉ : resultado.getKey? "data_situacao_cadastral" = some v₉)
    (h₁₀ : resultado.getKey? "motivo_situacao_cadastral_descricao" = some v₁₀)
    (h₁₁ : resultado.getKey? "data_inicio_atividades" = some v₁₁)
    (h₁₂ : resultado.getKey? "tipo_logradouro" = some v₁₂)
    (h₁₃ : resultado.getKey? "logradouro" = some v₁₃)
    (h₁₄ : resultado.getKey? "numero" = some v₁₄)
    (h₁₅ : resultado.getKey? "complemento" = some v₁₅)
    (h₁₆ : resultado.getKey? "bairro" = some v₁₆)
    (h₁₇ : resultado.getKey? "municipio_descricao" = some v₁₇)
    (h₁₈ : resultado.getKey? "uf" = some v₁₈)
    (h₁₉ : resultado.getKey? "cep" = some v₁₉)
    (h₂₀ : resultado.getKey? "ddd1" = some d₁)
    (h₂₁ : resultado.getKey? "telefone1" = some t₁)
    (h₂₂ : resultado.getKey? "ddd2" = some d₂)
    (h₂₃ : resultado.getKey? "telefone2" = some t₂)
    (h₂₄ : resultado.getKey? "ddd_fax" = some df)
    (h₂₅ : resultado.getKey? "fax" = some fx)
    (h₂₆ : resultado.getKey? "email" = some em)
    (h₂₇ : resultado.getKey? "cnae_principal_codigo" = some cc)
    (h₂₈ : resultado.getKey? "cnae_principal_descricao" = some cd)
    (h₂₉ : resultado.getKey? "lista_cnae_secundarios" = some lc)
    (h₃₀ : resultado.getKey? "lista_qsa" = some lq)
    (hcs : formatCnaes lc.items = .ok cs)
    (hqs : formatSocios lq.items = .ok qs) :
    format_cnpj_info resultado = .ok (
      ["\nInformações Básicas:",
       s!"CNPJ: {v₁.pyStr}",
       s!"Razão Social: {v₂.pyStr}",
       s!"Nome Fantasia: {v₃.pyStr}",
       s!"Natureza Jurídica: {v₄.pyStr}",
       s!"Capital Social: {v₅.pyStr}",
       s!"Porte: {v₆.pyStr}",
       s!"Matriz/Filial: {v₇.pyStr}",
       s!"Situação Cadastral: {v₈.pyStr}",
       s!"Data da Situação: {v₉.pyStr}",
       s!"Motivo da Situação: {v₁₀.pyStr}",
       s!"Data de Abertura: {v₁₁.pyStr}",
       "\nEndereço:",
       s!"Tipo de Logradouro: {v₁₂.pyStr}",
       s!"Logradouro: {v₁₃.pyStr}",
       s!"Número: {v₁₄.pyStr}",
       s!"Complemento: {v₁₅.pyStr}",
       s!"Bairro: {v₁₆.pyStr}",
       s!"Cidade: {v₁₇.pyStr}",
       s!"UF: {v₁₈.pyStr}",
       s!"CEP: {v₁₉.pyStr}",
       "\nContato:"]
      ++ (if d₁.truthy && t₁.truthy then
            [s!"DDD: {d₁.pyStr}", s!"Telefone: {t₁.pyStr}"] else [])
      ++ (if d₂.truthy && t₂.truthy then
            [s!"DDD 2: {d₂.pyStr}", s!"Telefone 2: {t₂.pyStr}"] else [])
      ++ (if df.truthy && fx.truthy then
            [s!"DDD Fax: {df.pyStr}", s!"Fax: {fx.pyStr}"] else [])
      ++ [s!"Email: {em.pyStr}",
          "\nAtividade Principal:",
          s!"Código CNAE: {cc.pyStr}",
          s!"Descrição CNAE: {cd.pyStr}"]
      ++ (if lc.truthy then "\nAtividades Secundárias:" :: cs else [])
      ++ (if lq.truthy then "\nQuadro Societário:" :: qs else [])) ∧
    ((d₁.truthy = false ∧ t₁.truthy = false) →
      format_cnpj_info resultado = .ok (
        ["\nInformações Básicas:",
         s!"CNPJ: {v₁.pyStr}",
         s!"Razão Social: {v₂.pyStr}",
         s!"Nome Fantasia: {v₃.pyStr}",
         s!"Natureza Jurídica: {v₄.pyStr}",
         s!"Capital Social: {v₅.pyStr}",
         s!"Porte: {v₆.pyStr}",
         s!"Matriz/Filial: {v₇.pyStr}",
         s!"Situação Cadastral: {v₈.pyStr}",
         s!"Data da Situação: {v₉.pyStr}",
         s!"Motivo da Situação: {v₁₀.pyStr}",
         s!"Data de Abertura: {v₁₁.pyStr}",
         "\nEndereço:",
         s!"Tipo de Logradouro: {v₁₂.pyStr}",
         s!"Logradouro: {v₁₃.pyStr}",
         s!"Número: {v₁₄.pyStr}",
         s!"Complemento: {v₁₅.pyStr}",
         s!"Bairro: {v₁₆.pyStr}",
         s!"Cidade: {v₁₇.pyStr}",
         s!"UF: {v₁₈.pyStr}",
         s!"CEP: {v₁₉.pyStr}",
         "\nContato:"]
        ++ (if d₂.truthy && t₂.truthy then
              [s!"DDD 2: {d₂.pyStr}", s!"Telefone 2: {t₂.pyStr}"] else [])
        ++ (if df.truthy && fx.truthy then
              [s!"DDD Fax: {df.pyStr}", s!"Fax: {fx.pyStr}"] else [])
        ++ [s!"Email: {em.pyStr}",
            "\nAtividade Principal:",
            s!"Código CNAE: {cc.pyStr}",
            s!"Descrição CNAE: {cd.pyStr}"]
        ++ (if lc.truthy then "\nAtividades Secundárias:" :: cs else [])
        ++ (if lq.truthy then "\nQuadro Societário:" :: qs else []))) ∧
    ((d₁.truthy = true ∧ t₁.truthy = true) →
      format_cnpj_info resultado = .ok (
        ["\nInformações Básicas:",
         s!"CNPJ: {v₁.pyStr}",
         s!"Razão Social: {v₂.pyStr}",
         s!"Nome Fantasia: {v₃.pyStr}",
         s!"Natureza Jurídica: {v₄.pyStr}",
         s!"Capital Social: {v₅.pyStr}",
         s!"Porte: {v₆.pyStr}",
         s!"Matriz/Filial: {v₇.pyStr}",
         s!"Situação Cadastral: {v₈.pyStr}",
         s!"Data da Situação: {v₉.pyStr}",
         s!"Motivo da Situação: {v₁₀.pyStr}",
         s!"Data de Abertura: {v₁₁.pyStr}",
         "\nEndereço:",
         s!"Tipo de Logradouro: {v₁₂.pyStr}",
         s!"Logradouro: {v₁₃.pyStr}",
         s!"Número: {v₁₄.pyStr}",
         s!"Complemento: {v₁₅.pyStr}",
         s!"Bairro: {v₁₆.pyStr}",
         s!"Cidade: {v₁₇.pyStr}",
         s!"UF: {v₁₈.pyStr}",
         s!"CEP: {v₁₉.pyStr}",
         "\nContato:",
         s!"DDD: {d₁.pyStr}", s!"Telefone: {t₁.pyStr}"]
        ++ (if d₂.truthy && t₂.truthy then
              [s!"DDD 2: {d₂.pyStr}", s!"Telefone 2: {t₂.pyStr}"] else [])
        ++ (if df.truthy && fx.truthy then
              [s!"DDD Fax: {df.pyStr}", s!"Fax: {fx.pyStr}"] else [])
        ++ [s!"Email: {em.pyStr}",
            "\nAtividade Principal:",
            s!"Código CNAE: {cc.pyStr}",
            s!"Descrição CNAE: {cd.pyStr}"]
        ++ (if lc.truthy then "\nAtividades Secundárias:" :: cs else [])
        ++ (if lq.truthy then "\nQuadro Societário:" :: qs else []))) := by
  have hA := format_cnpj_info_unfold resultado
    v₁ v₂ v₃ v₄ v₅ v₆ v₇ v₈ v₉ v₁₀ v₁₁ v₁₂ v₁₃ v₁₄ v₁₅ v₁₆ v₁₇ v₁₈ v₁₉
    em cc cd _ _ _ _ _
    h₁ h₂ h₃ h₄ h₅ h₆ h₇ h₈ h₉ h₁₀ h₁₁ h₁₂ h₁₃ h₁₄ h₁₅ h₁₆ h₁₇ h₁₈ h₁₉
    (contato1_eq resultado d₁ t₁ h₂₀ h₂₁)
    (contato2_eq resultado d₂ t₂ h₂₂ h₂₃)
    (contato3_eq resultado df fx h₂₄ h₂₅)
    h₂₆ h₂₇ h₂₈
    (atividadesSecundarias_eq resultado lc cs h₂₉ hcs)
    (quadroSocietario_eq resultado lq qs h₃₀ hqs)
  refine ⟨hA, fun hd => ?_, fun hd => ?_⟩
  · simpa [hd.1, hd.2] using hA
  · simpa [hd.1, hd.2] using hA

/-- C6: for every result mapping holding all fixed keys, an empty
secondary-activity sequence produces no `Atividades Secundárias` header,
and a one-entry sequence produces the header followed by exactly one
code/description pair. -/
theorem claim6_secondary_activities (resultado : Json)
    {v₁ v₂ v₃ v₄ v₅ v₆ v₇ v₈ v₉ v₁₀ v₁₁ v₁₂ v₁₃ v₁₄ v₁₅ v₁₆ v₁₇ v₁₈ v₁₉ : Json}
    {d₁ t₁ d₂ t₂ df fx em cc cd lc lq : Json} {qs : List String}
    (h₁ : resultado.getKey? "cnpj_formatado" = some v₁)
    (h₂ : resultado.getKey? "razao_social" = some v₂)
    (h₃ : resultado.getKey? "nome_fantasia" = some v₃)
    (h₄ : resultado.getKey? "natureza_juridica_descricao" = some v₄)
    (h₅ : resultado.getKey? "capital_social_formatado" = some v₅)
    (h₆ : resultado.getKey? "porte_empresa_descricao" = some v₆)
    (h₇ : resultado.getKey? "matriz_filial_descricao" = some v₇)
    (h₈ : resultado.getKey? "situacao_cadastral_descricao" = some v₈)
    (h₉ : resultado.getKey? "data_situacao_cadastral" = some v₉)
    (h₁₀ : resultado.getKey? "motivo_situacao_cadastral_descricao" = some v₁₀)
    (h₁₁ : resultado.getKey? "data_inicio_atividades" = some v₁₁)
    (h₁₂ : resultado.getKey? "tipo_logradouro" = some v₁₂)
    (h₁₃ : resultado.getKey? "logradouro" = some v₁₃)
    (h₁₄ : resultado.getKey? "numero" = some v₁₄)
    (h₁₅ : resultado.getKey? "complemento" = some v₁₅)
    (h₁₆ : resultado.getKey? "bairro" = some v₁₆)
    (h₁₇ : resultado.getKey? "municipio_descricao" = some v₁₇)
    (h₁₈ : resultado.getKey? "uf" = some v₁₈)
    (h₁₉ : resultado.getKey? "cep" = some v₁₉)
    (h₂₀ : resultado.getKey? "ddd1" = some d₁)
    (h₂₁ : resultado.getKey? "telefone1" = some t₁)
    (h₂₂ : resultado.getKey? "ddd2" = some d₂)
    (h₂₃ : resultado.getKey? "telefone2" = some t₂)
    (h₂₄ : resultado.getKey? "ddd_fax" = some df)
    (h₂₅ : resultado.getKey? "fax" = some fx)
    (h₂₆ : resultado.getKey? "email" = some em)
    (h₂₇ : resultado.getKey? "cnae_principal_codigo" = some cc)
    (h₂₈ : resultado.getKey? "cnae_principal_descricao" = some cd)
    (h₂₉ : resultado.getKey? "lista_cnae_secundarios" = some lc)
    (h₃₀ : resultado.getKey? "lista_qsa" = some lq)
    (hqs : formatSocios lq.items = .ok qs) :
    (lc = .arr [] →
      format_cnpj_info resultado = .ok (
        ["\nInformações Básicas:",
         s!"CNPJ: {v₁.pyStr}",
         s!"Razão Social: {v₂.pyStr}",
         s!"Nome Fantasia: {v₃.pyStr}",
         s!"Natureza Jurídica: {v₄.pyStr}",
         s!"Capital Social: {v₅.pyStr}",
         s!"Porte: {v₆.pyStr}",
         s!"Matriz/Filial: {v₇.pyStr}",
         s!"Situação Cadastral: {v₈.pyStr}",
         s!"Data da Situação: {v₉.pyStr}",
         s!"Motivo da Situação: {v₁₀.pyStr}",
         s!"Data de Abertura: {v₁₁.pyStr}",
         "\nEndereço:",
         s!"Tipo de Logradouro: {v₁₂.pyStr}",
         s!"Logradouro: {v₁₃.pyStr}",
         s!"Número: {v₁₄.pyStr}",
         s!"Complemento: {v₁₅.pyStr}",
         s!"Bairro: {v₁₆.pyStr}",
         s!"Cidade: {v₁₇.pyStr}",
         s!"UF: {v₁₈.pyStr}",
         s!"CEP: {v₁₉.pyStr}",
         "\nContato:"]
        ++ (if d₁.truthy && t₁.truthy then
              [s!"DDD: {d₁.pyStr}", s!"Telefone: {t₁.pyStr}"] else [])
        ++ (if d₂.truthy && t₂.truthy then
              [s!"DDD 2: {d₂.pyStr}", s!"Telefone 2: {t₂.pyStr}"] else [])
        ++ (if df.truthy && fx.truthy then
              [s!"DDD Fax: {df.pyStr}", s!"Fax: {fx.pyStr}"] else [])
        ++ [s!"Email: {em.pyStr}",
            "\nAtividade Principal:",
            s!"Código CNAE: {cc.pyStr}",
            s!"Descrição CNAE: {cd.pyStr}"]
        ++ (if lq.truthy then "\nQuadro Societário:" :: qs else []))) ∧
    (∀ ent c dsc, lc = .arr [ent] →
      ent.getKey? "codigo" = some c → ent.getKey? "descricao" = some dsc →
      format_cnpj_info resultado = .ok (
        ["\nInformações Básicas:",
         s!"CNPJ: {v₁.pyStr}",
         s!"Razão Social: {v₂.pyStr}",
         s!"Nome Fantasia: {v₃.pyStr}",
         s!"Natureza Jurídica: {v₄.pyStr}",
         s!"Capital Social: {v₅.pyStr}",
         s!"Porte: {v₆.pyStr}",
         s!"Matriz/Filial: {v₇.pyStr}",
         s!"Situação Cadastral: {v₈.pyStr}",
         s!"Data da Situação: {v₉.pyStr}",
         s!"Motivo da Situação: {v₁₀.pyStr}",
         s!"Data de Abertura: {v₁₁.pyStr}",
         "\nEndereço:",
         s!"Tipo de Logradouro: {v₁₂.pyStr}",
         s!"Logradouro: {v₁₃.pyStr}",
         s!"Número: {v₁₄.pyStr}",
         s!"Complemento: {v₁₅.pyStr}",
         s!"Bairro: {v₁₆.pyStr}",
         s!"Cidade: {v₁₇.pyStr}",
         s!"UF: {v₁₈.pyStr}",
         s!"CEP: {v₁₉.pyStr}",
         "\nContato:"]
        ++ (if d₁.truthy && t₁.truthy then
              [s!"DDD: {d₁.pyStr}", s!"Telefone: {t₁.pyStr}"] else [])
        ++ (if d₂.truthy && t₂.truthy then
              [s!"DDD 2: {d₂.pyStr}", s!"Telefone 2: {t₂.pyStr}"] else [])
        ++ (if df.truthy && fx.truthy then
              [s!"DDD Fax: {df.pyStr}", s!"Fax: {fx.pyStr}"] else [])
        ++ [s!"Email: {em.pyStr}",
            "\nAtividade Principal:",
            s!"Código CNAE: {cc.pyStr}",
            s!"Descrição CNAE: {cd.pyStr}",
            "\nAtividades Secundárias:",
            s!"Código: {c.pyStr}",
            s!"Descrição: {dsc.pyStr}"]
        ++ (if lq.truthy then "\nQuadro Societário:" :: qs else []))) := by
  constructor
  · intro hlc
    subst hlc
    have hA := format_cnpj_info_unfold resultado
      v₁ v₂ v₃ v₄ v₅ v₆ v₇ v₈ v₉ v₁₀ v₁₁ v₁₂ v₁₃ v₁₄ v₁₅ v₁₆ v₁₇ v₁₈ v₁₉
      em cc cd _ _ _ _ _
      h₁ h₂ h₃ h₄ h₅ h₆ h₇ h₈ h₉ h₁₀ h₁₁ h₁₂ h₁₃ h₁₄ h₁₅ h₁₆ h₁₇ h₁₈ h₁₉
      (contato1_eq resultado d₁ t₁ h₂₀ h₂₁)
      (contato2_eq resultado d₂ t₂ h₂₂ h₂₃)
      (contato3_eq resultado df fx h₂₄ h₂₅)
      h₂₆ h₂₇ h₂₈
      (atividadesSecundarias_eq resultado (.arr []) [] h₂₉ rfl)
      (quadroSocietario_eq resultado lq qs h₃₀ hqs)
    simpa [Json.truthy] using hA
  · intro ent c dsc hlc hc hd
    subst hlc
    have hcs₁ : formatCnaes (Json.arr [ent]).items =
        .ok [s!"Código: {c.pyStr}", s!"Descrição: {dsc.pyStr}"] := by
      simp [Json.items, formatCnaes, getItem, hc, hd, exceptBindOk, exceptPure]
    have hA := format_cnpj_info_unfold resultado
      v₁ v₂ v₃ v₄ v₅ v₆ v₇ v₈ v₉ v₁₀ v₁₁ v₁₂ v₁₃ v₁₄ v₁₅ v₁₆ v₁₇ v₁₈ v₁₉
      em cc cd _ _ _ _ _
      h₁ h₂ h₃ h₄ h₅ h₆ h₇ h₈ h₉ h₁₀ h₁₁ h₁₂ h₁₃ h₁₄ h₁₅ h₁₆ h₁₇ h₁₈ h₁₉
      (contato1_eq resultado d₁ t₁ h₂₀ h₂₁)
      (contato2_eq resultado d₂ t₂ h₂₂ h₂₃)
      (contato3_eq resultado df fx h₂₄ h₂₅)
      h₂₆ h₂₇ h₂₈
      (atividadesSecundarias_eq resultado (.arr [ent]) _ h₂₉ hcs₁)
      (quadroSocietario_eq resultado lq qs h₃₀ hqs)
    simpa [Json.truthy] using hA

/-- C8 amended: for every ownership entry, the age-bracket line is
printed exactly when the age-bracket value is present and truthy; the key
itself is required, and an entry from which it is absent makes
`format_cnpj_info` raise `KeyError` rather than print the entry without
the line. -/
theorem claim8_age_bracket (resultado socio : Json)
    {v₁ v₂ v₃ v₄ v₅ v₆ v₇ v₈ v₉ v₁₀ v₁₁ v₁₂ v₁₃ v₁₄ v₁₅ v₁₆ v₁₇ v₁₈ v₁₉ : Json}
    {d₁ t₁ d₂ t₂ df fx em cc cd lc : Json} {cs : List String}
    {sn st sd sq sen : Json}
    (h₁ : resultado.getKey? "cnpj_formatado" = some v₁)
    (h₂ : resultado.getKey? "razao_social" = some v₂)
    (h₃ : resultado.getKey? "nome_fantasia" = some v₃)
    (h₄ : resultado.getKey? "natureza_juridica_descricao" = some v₄)
    (h₅ : resultado.getKey? "capital_social_formatado" = some v₅)
    (h₆ : resultado.getKey? "porte_empresa_descricao" = some v₆)
    (h₇ : resultado.getKey? "matriz_filial_descricao" = some v₇)
    (h₈ : resultado.getKey? "situacao_cadastral_descricao" = some v₈)
    (h₉ : resultado.getKey? "data_situacao_cadastral" = some v₉)
    (h₁₀ : resultado.getKey? "motivo_situacao_cadastral_descricao" = some v₁₀)
    (h₁₁ : resultado.getKey? "data_inicio_atividades" = some v₁₁)
    (h₁₂ : resultado.getKey? "tipo_logradouro" = some v₁₂)
    (h₁₃ : resultado.getKey? "logradouro" = some v₁₃)
    (h₁₄ : resultado.getKey? "numero" = some v₁₄)
    (h₁₅ : resultado.getKey? "complemento" = some v₁₅)
    (h₁₆ : resultado.getKey? "bairro" = some v₁₆)
    (h₁₇ : resultado.getKey? "municipio_descricao" = some v₁₇)
    (h₁₈ : resultado.getKey? "uf" = some v₁₈)
    (h₁₉ : resultado.getKey? "cep" = some v₁₉)
    (h₂₀ : resultado.getKey? "ddd1" = some d₁)
    (h₂₁ : resultado.getKey? "telefone1" = some t₁)
    (h₂₂ : resultado.getKey? "ddd2" = some d₂)
    (h₂₃ : resultado.getKey? "telefone2" = some t₂)
    (h₂₄ : resultado.getKey? "ddd_fax" = some df)
    (h₂₅ : resultado.getKey? "fax" = some fx)
    (h₂₆ : resultado.getKey? "email" = some em)
    (h₂₇ : resultado.getKey? "cnae_principal_codigo" = some cc)
    (h₂₈ : resultado.getKey? "cnae_principal_descricao" = some cd)
    (h₂₉ : resultado.getKey? "lista_cnae_secundarios" = some lc)
    (hcs : formatCnaes lc.items = .ok cs)
    (h₃₀ : resultado.getKey? "lista_qsa" = some (.arr [socio]))
    (s₁ : socio.getKey? "nome_qsa" = some sn)
    (s₂ : socio.getKey? "tipo_qsa_descricao" = some st)
    (s₃ : socio.getKey? "cpf_cnpj_qsa_formatado" = some sd)
    (s₄ : socio.getKey? "qualificacao_qsa_descricao" = some sq)
    (s₅ : socio.getKey? "data_entrada_qsa" = some sen) :
    (∀ fv, socio.getKey? "faixa_etaria_qsa_descricao" = some fv →
      format_cnpj_info resultado = .ok (
        ["\nInformações Básicas:",
         s!"CNPJ: {v₁.pyStr}",
         s!"Razão Social: {v₂.pyStr}",
         s!"Nome Fantasia: {v₃.pyStr}",
         s!"Natureza Jurídica: {v₄.pyStr}",
         s!"Capital Social: {v₅.pyStr}",
         s!"Porte: {v₆.pyStr}",
         s!"Matriz/Filial: {v₇.pyStr}",
         s!"Situação Cadastral: {v₈.pyStr}",
         s!"Data da Situação: {v₉.pyStr}",
         s!"Motivo da Situação: {v₁₀.pyStr}",
         s!"Data de Abertura: {v₁₁.pyStr}",
         "\nEndereço:",
         s!"Tipo de Logradouro: {v₁₂.pyStr}",
         s!"Logradouro: {v₁₃.pyStr}",
         s!"Número: {v₁₄.pyStr}",
         s!"Complemento: {v₁₅.pyStr}",
         s!"Bairro: {v₁₆.pyStr}",
         s!"Cidade: {v₁₇.pyStr}",
         s!"UF: {v₁₈.pyStr}",
         s!"CEP: {v₁₉.pyStr}",
         "\nContato:"]
        ++ (if d₁.truthy && t₁.truthy then
              [s!"DDD: {d₁.pyStr}", s!"Telefone: {t₁.pyStr}"] else [])
        ++ (if d₂.truthy && t₂.truthy then
              [s!"DDD 2: {d₂.pyStr}", s!"Telefone 2: {t₂.pyStr}"] else [])
        ++ (if df.truthy && fx.truthy then
              [s!"DDD Fax: {df.pyStr}", s!"Fax: {fx.pyStr}"] else [])
        ++ [s!"Email: {em.pyStr}",
            "\nAtividade Principal:",
            s!"Código CNAE: {cc.pyStr}",
            s!"Descrição CNAE: {cd.pyStr}"]
        ++ (if lc.truthy then "\nAtividades Secundárias:" :: cs else [])
        ++ ("\nQuadro Societário:" ::
            ([s!"\nSócio: {sn.pyStr}", s!"Tipo: {st.pyStr}",
              s!"CPF/CNPJ: {sd.pyStr}", s!"Qualificação: {sq.pyStr}",
              s!"Data de Entrada: {sen.pyStr}"]
             ++ if fv.truthy then [s!"Faixa Etária: {fv.pyStr}"] else [])))) ∧
    (socio.getKey? "faixa_etaria_qsa_descricao" = none →
      format_cnpj_info resultado =
        .error (.keyError "faixa_etaria_qsa_descricao")) := by
  constructor
  · intro fv hfv
    have hsoc := formatSocio_eq socio sn st sd sq sen fv s₁ s₂ s₃ s₄ s₅ hfv
    have hlist := formatSocios_one socio _ hsoc
    have hA := format_cnpj_info_unfold resultado
      v₁ v₂ v₃ v₄ v₅ v₆ v₇ v₈ v₉ v₁₀ v₁₁ v₁₂ v₁₃ v₁₄ v₁₅ v₁₆ v₁₇ v₁₈ v₁₉
      em cc cd _ _ _ _ _
      h₁ h₂ h₃ h₄ h₅ h₆ h₇ h₈ h₉ h₁₀ h₁₁ h₁₂ h₁₃ h₁₄ h₁₅ h₁₆ h₁₇ h₁₈ h₁₉
      (contato1_eq resultado d₁ t₁ h₂₀ h₂₁)
      (contato2_eq resultado d₂ t₂ h₂₂ h₂₃)
      (contato3_eq resultado df fx h₂₄ h₂₅)
      h₂₆ h₂₇ h₂₈
      (atividadesSecundarias_eq resultado lc cs h₂₉ hcs)
      (quadroSocietario_eq resultado (.arr [socio]) _ h₃₀ hlist)
    simpa [Json.truthy] using hA
  · intro hfx
    have herr := formatSocio_semFaixa socio sn st sd sq sen s₁ s₂ s₃ s₄ s₅ hfx
    have herr₂ := formatSocios_one_err socio _ herr
    have hq := quadroSocietario_err resultado (.arr [socio]) _ h₃₀ rfl herr₂
    exact format_cnpj_info_qsaErr resultado
      v₁ v₂ v₃ v₄ v₅ v₆ v₇ v₈ v₉ v₁₀ v₁₁ v₁₂ v₁₃ v₁₄ v₁₅ v₁₆ v₁₇ v₁₈ v₁₉
      em cc cd _ _ _ _ _
      h₁ h₂ h₃ h₄ h₅ h₆ h₇ h₈ h₉ h₁₀ h₁₁ h₁₂ h₁₃ h₁₄ h₁₅ h₁₆ h₁₇ h₁₈ h₁₉
      (contato1_eq resultado d₁ t₁ h₂₀ h₂₁)
      (contato2_eq resultado d₂ t₂ h₂₂ h₂₃)
      (contato3_eq resultado df fx h₂₄ h₂₅)
      h₂₆ h₂₇ h₂₈
      (atividadesSecundarias_eq resultado lc cs h₂₉ hcs)
      hq

/-- C10 amended: `format_cnpj_info` requires every unconditionally-
accessed fixed top-level key and prints the `Contato:` header and the
`Email` line unconditionally: a successful run implies all 27 keys of
`chavesFixas` are present and both lines appear in the output (seventh
conjunct).  The area-code keys are required even when their lines would
not be printed: with the preceding accesses succeeding, a missing
`ddd1`, `ddd2` or `ddd_fax` raises `KeyError` (first three conjuncts).
The companion number keys `telefone1`/`telefone2`/`fax` are accessed
only when their area-code value is truthy, so each missing number key
raises `KeyError` exactly when its area code is truthy, while its pair
completes without error and prints nothing when it is falsy (fourth to
sixth conjuncts); with all three pairs short-circuited over missing
number keys the formatter still succeeds end to end (eighth conjunct).
Within each ownership entry the age-bracket key is required
unconditionally (ninth conjunct). -/
theorem claim10_required_keys (resultado : Json)
    {v₁ v₂ v₃ v₄ v₅ v₆ v₇ v₈ v₉ v₁₀ v₁₁ v₁₂ v₁₃ v₁₄ v₁₅ v₁₆ v₁₇ v₁₈ v₁₉ : Json}
    (h₁ : resultado.getKey? "cnpj_formatado" = some v₁)
    (h₂ : resultado.getKey? "razao_social" = some v₂)
    (h₃ : resultado.getKey? "nome_fantasia" = some v₃)
    (h₄ : resultado.getKey? "natureza_juridica_descricao" = some v₄)
    (h₅ : resultado.getKey? "capital_social_formatado" = some v₅)
    (h₆ : resultado.getKey? "porte_empresa_descricao" = some v₆)
    (h₇ : resultado.getKey? "matriz_filial_descricao" = some v₇)
    (h₈ : resultado.getKey? "situacao_cadastral_descricao" = some v₈)
    (h₉ : resultado.getKey? "data_situacao_cadastral" = some v₉)
    (h₁₀ : resultado.getKey? "motivo_situacao_cadastral_descricao" = some v₁₀)
    (h₁₁ : resultado.getKey? "data_inicio_atividades" = some v₁₁)
    (h₁₂ : resultado.getKey? "tipo_logradouro" = some v₁₂)
    (h₁₃ : resultado.getKey? "logradouro" = some v₁₃)
    (h₁₄ : resultado.getKey? "numero" = some v₁₄)
    (h₁₅ : resultado.getKey? "complemento" = some v₁₅)
    (h₁₆ : resultado.getKey? "bairro" = some v₁₆)
    (h₁₇ : resultado.getKey? "municipio_descricao" = some v₁₇)
    (h₁₈ : resultado.getKey? "uf" = some v₁₈)
    (h₁₉ : resultado.getKey? "cep" = some v₁₉) :
    (resultado.getKey? "ddd1" = none →
      format_cnpj_info resultado = .error (.keyError "ddd1")) ∧
    (∀ l₁, contato1 resultado = .ok l₁ →
      resultado.getKey? "ddd2" = none →
      format_cnpj_info resultado = .error (.keyError "ddd2")) ∧
    (∀ l₁ l₂, contato1 resultado = .ok l₁ → contato2 resultado = .ok l₂ →
      resultado.getKey? "ddd_fax" = none →
      format_cnpj_info resultado = .error (.keyError "ddd_fax")) ∧
    (∀ d, resultado.getKey? "ddd1" = some d →
      resultado.getKey? "telefone1" = none →
      (d.truthy = true →
        format_cnpj_info resultado = .error (.keyError "telefone1")) ∧
      (d.truthy = false → contato1 resultado = .ok [])) ∧
    (∀ l₁ d, contato1 resultado = .ok l₁ →
      resultado.getKey? "ddd2" = some d →
      resultado.getKey? "telefone2" = none →
      (d.truthy = true →
        format_cnpj_info resultado = .error (.keyError "telefone2")) ∧
      (d.truthy = false → contato2 resultado = .ok [])) ∧
    (∀ l₁ l₂ d, contato1 resultado = .ok l₁ → contato2 resultado = .ok l₂ →
      resultado.getKey? "ddd_fax" = some d →
      resultado.getKey? "fax" = none →
      (d.truthy = true →
        format_cnpj_info resultado = .error (.keyError "fax")) ∧
      (d.truthy = false → contato3 resultado = .ok [])) ∧
    (∀ out, format_cnpj_info resultado = .ok out →
      (∀ k ∈ chavesFixas, (resultado.getKey? k).isSome = true) ∧
      "\nContato:" ∈ out ∧
      (∃ ev, resultado.getKey? "email" = some ev ∧
        s!"Email: {ev.pyStr}" ∈ out)) ∧
    (∀ d₁ d₂ d₃ em cc cd lc lq cs qs,
      resultado.getKey? "ddd1" = some d₁ → d₁.truthy = false →
      resultado.getKey? "telefone1" = none →
      resultado.getKey? "ddd2" = some d₂ → d₂.truthy = false →
      resultado.getKey? "telefone2" = none →
      resultado.getKey? "ddd_fax" = some d₃ → d₃.truthy = false →
      resultado.getKey? "fax" = none →
      resultado.getKey? "email" = some em →
      resultado.getKey? "cnae_principal_codigo" = some cc →
      resultado.getKey? "cnae_principal_descricao" = some cd →
      resultado.getKey? "lista_cnae_secundarios" = some lc →
      resultado.getKey? "lista_qsa" = some lq →
      formatCnaes lc.items = .ok cs →
      formatSocios lq.items = .ok qs →
      format_cnpj_info resultado = .ok (
        ["\nInformações Básicas:",
         s!"CNPJ: {v₁.pyStr}",
         s!"Razão Social: {v₂.pyStr}",
         s!"Nome Fantasia: {v₃.pyStr}",
         s!"Natureza Jurídica: {v₄.pyStr}",
         s!"Capital Social: {v₅.pyStr}",
         s!"Porte: {v₆.pyStr}",
         s!"Matriz/Filial: {v₇.pyStr}",
         s!"Situação Cadastral: {v₈.pyStr}",
         s!"Data da Situação: {v₉.pyStr}",
         s!"Motivo da Situação: {v₁₀.pyStr}",
         s!"Data de Abertura: {v₁₁.pyStr}",
         "\nEndereço:",
         s!"Tipo de Logradouro: {v₁₂.pyStr}",
         s!"Logradouro: {v₁₃.pyStr}",
         s!"Número: {v₁₄.pyStr}",
         s!"Complemento: {v₁₅.pyStr}",
         s!"Bairro: {v₁₆.pyStr}",
         s!"Cidade: {v₁₇.pyStr}",
         s!"UF: {v₁₈.pyStr}",
         s!"CEP: {v₁₉.pyStr}",
         "\nContato:"]
        ++ [s!"Email: {em.pyStr}",
            "\nAtividade Principal:",
            s!"Código CNAE: {cc.pyStr}",
            s!"Descrição CNAE: {cd.pyStr}"]
        ++ (if lc.truthy then "\nAtividades Secundárias:" :: cs else [])
        ++ (if lq.truthy then "\nQuadro Societário:" :: qs else []))) ∧
    (∀ socio l₁ l₂ l₃ em cc cd lc cs,
      contato1 resultado = .ok l₁ → contato2 resultado = .ok l₂ →
      contato3 resultado = .ok l₃ →
      resultado.getKey? "email" = some em →
      resultado.getKey? "cnae_principal_codigo" = some cc →
      resultado.getKey? "cnae_principal_descricao" = some cd →
      resultado.getKey? "lista_cnae_secundarios" = some lc →
      formatCnaes lc.items = .ok cs →
      resultado.getKey? "lista_qsa" = some (.arr [socio]) →
      ∀ sn st sd sq sen,
        socio.getKey? "nome_qsa" = some sn →
        socio.getKey? "tipo_qsa_descricao" = some st →
        socio.getKey? "cpf_cnpj_qsa_formatado" = some sd →
        socio.getKey? "qualificacao_qsa_descricao" = some sq →
        socio.getKey? "data_entrada_qsa" = some sen →
        socio.getKey? "faixa_etaria_qsa_descricao" = none →
        format_cnpj_info resultado =
          .error (.keyError "faixa_etaria_qsa_descricao")) := by
  refine ⟨?_, ?_, ?_, ?_, ?_, ?_, ?_, ?_, ?_⟩
  · intro hnd
    exact format_cnpj_info_c1err resultado
      v₁ v₂ v₃ v₄ v₅ v₆ v₇ v₈ v₉ v₁₀ v₁₁ v₁₂ v₁₃ v₁₄ v₁₅ v₁₆ v₁₇ v₁₈ v₁₉ _
      h₁ h₂ h₃ h₄ h₅ h₆ h₇ h₈ h₉ h₁₀ h₁₁ h₁₂ h₁₃ h₁₄ h₁₅ h₁₆ h₁₇ h₁₈ h₁₉
      (contato1_semDdd resultado hnd)
  · intro l₁ hc1 hnd
    exact format_cnpj_info_c2err resultado
      v₁ v₂ v₃ v₄ v₅ v₆ v₇ v₈ v₉ v₁₀ v₁₁ v₁₂ v₁₃ v₁₄ v₁₅ v₁₆ v₁₇ v₁₈ v₁₉ l₁ _
      h₁ h₂ h₃ h₄ h₅ h₆ h₇ h₈ h₉ h₁₀ h₁₁ h₁₂ h₁₃ h₁₄ h₁₅ h₁₆ h₁₇ h₁₈ h₁₉
      hc1 (contato2_semDdd resultado hnd)
  · intro l₁ l₂ hc1 hc2 hnd
    exact format_cnpj_info_c3err resultado
      v₁ v₂ v₃ v₄ v₅ v₆ v₇ v₈ v₉ v₁₀ v₁₁ v₁₂ v₁₃ v₁₄ v₁₅ v₁₆ v₁₇ v₁₈ v₁₉ l₁ l₂ _
      h₁ h₂ h₃ h₄ h₅ h₆ h₇ h₈ h₉ h₁₀ h₁₁ h₁₂ h₁₃ h₁₄ h₁₅ h₁₆ h₁₇ h₁₈ h₁₉
      hc1 hc2 (contato3_semDdd resultado hnd)
  · intro d hd hn
    refine ⟨fun ht => ?_, fun hf => contato1_skip resultado d hd hf⟩
    exact format_cnpj_info_c1err resultado
      v₁ v₂ v₃ v₄ v₅ v₆ v₇ v₈ v₉ v₁₀ v₁₁ v₁₂ v₁₃ v₁₄ v₁₅ v₁₆ v₁₇ v₁₈ v₁₉ _
      h₁ h₂ h₃ h₄ h₅ h₆ h₇ h₈ h₉ h₁₀ h₁₁ h₁₂ h₁₃ h₁₄ h₁₅ h₁₆ h₁₇ h₁₈ h₁₉
      (contato1_semTelefone resultado d hd ht hn)
  · intro l₁ d hc1 hd hn
    refine ⟨fun ht => ?_, fun hf => contato2_skip resultado d hd hf⟩
    exact format_cnpj_info_c2err resultado
      v₁ v₂ v₃ v₄ v₅ v₆ v₇ v₈ v₉ v₁₀ v₁₁ v₁₂ v₁₃ v₁₄ v₁₅ v₁₆ v₁₇ v₁₈ v₁₉ l₁ _
      h₁ h₂ h₃ h₄ h₅ h₆ h₇ h₈ h₉ h₁₀ h₁₁ h₁₂ h₁₃ h₁₄ h₁₅ h₁₆ h₁₇ h₁₈ h₁₉
      hc1 (contato2_semTelefone resultado d hd ht hn)
  · intro l₁ l₂ d hc1 hc2 hd hn
    refine ⟨fun ht => ?_, fun hf => contato3_skip resultado d hd hf⟩
    exact format_cnpj_info_c3err resultado
      v₁ v₂ v₃ v₄ v₅ v₆ v₇ v₈ v₉ v₁₀ v₁₁ v₁₂ v₁₃ v₁₄ v₁₅ v₁₆ v₁₇ v₁₈ v₁₉ l₁ l₂ _
      h₁ h₂ h₃ h₄ h₅ h₆ h₇ h₈ h₉ h₁₀ h₁₁ h₁₂ h₁₃ h₁₄ h₁₅ h₁₆ h₁₇ h₁₈ h₁₉
      hc1 hc2 (contato3_semFax resultado d hd ht hn)
  · intro out hout
    unfold format_cnpj_info at hout
    obtain ⟨a₁, ha₁, hout⟩ := exceptBindOkInv _ _ _ hout
    obtain ⟨a₂, ha₂, hout⟩ := exceptBindOkInv _ _ _ hout
    obtain ⟨a₃, ha₃, hout⟩ := exceptBindOkInv _ _ _ hout
    obtain ⟨a₄, ha₄, hout⟩ := exceptBindOkInv _ _ _ hout
    obtain ⟨a₅, ha₅, hout⟩ := exceptBindOkInv _ _ _ hout
    obtain ⟨a₆, ha₆, hout⟩ := exceptBindOkInv _ _ _ hout
    obtain ⟨a₇, ha₇, hout⟩ := exceptBindOkInv _ _ _ hout
    obtain ⟨a₈, ha₈, hout⟩ := exceptBindOkInv _ _ _ hout
    obtain ⟨a₉, ha₉, hout⟩ := exceptBindOkInv _ _ _ hout
    obtain ⟨a₁₀, ha₁₀, hout⟩ := exceptBindOkInv _ _ _ hout
    obtain ⟨a₁₁, ha₁₁, hout⟩ := exceptBindOkInv _ _ _ hout
    obtain ⟨a₁₂, ha₁₂, hout⟩ := exceptBindOkInv _ _ _ hout
    obtain ⟨a₁₃, ha₁₃, hout⟩ := exceptBindOkInv _ _ _ hout
    obtain ⟨a₁₄, ha₁₄, hout⟩ := exceptBindOkInv _ _ _ hout
    obtain ⟨a₁₅, ha₁₅, hout⟩ := exceptBindOkInv _ _ _ hout
    obtain ⟨a₁₆, ha₁₆, hout⟩ := exceptBindOkInv _ _ _ hout
    obtain ⟨a₁₇, ha₁₇, hout⟩ := exceptBindOkInv _ _ _ hout
    obtain ⟨a₁₈, ha₁₈, hout⟩ := exceptBindOkInv _ _ _ hout
    obtain ⟨a₁₉, ha₁₉, hout⟩ := exceptBindOkInv _ _ _ hout
    obtain ⟨b₁, hb₁, hout⟩ := exceptBindOkInv _ _ _ hout
    obtain ⟨b₂, hb₂, hout⟩ := exceptBindOkInv _ _ _ hout
    obtain ⟨b₃, hb₃, hout⟩ := exceptBindOkInv _ _ _ hout
    obtain ⟨aem, haem, hout⟩ := exceptBindOkInv _ _ _ hout
    obtain ⟨acc, hacc, hout⟩ := exceptBindOkInv _ _ _ hout
    obtain ⟨acd, hacd, hout⟩ := exceptBindOkInv _ _ _ hout
    obtain ⟨asec, hasec, hout⟩ := exceptBindOkInv _ _ _ hout
    obtain ⟨aqsa, haqsa, hout⟩ := exceptBindOkInv _ _ _ hout
    simp only [exceptPure, Except.ok.injEq] at hout
    subst hout
    unfold contato1 at hb₁
    obtain ⟨d₁, hd₁, hrest₁⟩ := exceptBindOkInv _ _ _ hb₁
    unfold contato2 at hb₂
    obtain ⟨d₂, hd₂, hrest₂⟩ := exceptBindOkInv _ _ _ hb₂
    unfold contato3 at hb₃
    obtain ⟨d₃, hd₃, hrest₃⟩ := exceptBindOkInv _ _ _ hb₃
    unfold atividadesSecundarias at hasec
    obtain ⟨lc, hlc, hrestLc⟩ := exceptBindOkInv _ _ _ hasec
    unfold quadroSocietario at haqsa
    obtain ⟨lq, hlq, hrestLq⟩ := exceptBindOkInv _ _ _ haqsa
    have ed₁ := getItem_ok _ _ _ hd₁
    have ed₂ := getItem_ok _ _ _ hd₂
    have ed₃ := getItem_ok _ _ _ hd₃
    have eem := getItem_ok _ _ _ haem
    have ecc := getItem_ok _ _ _ hacc
    have ecd := getItem_ok _ _ _ hacd
    have elc := getItem_ok _ _ _ hlc
    have elq := getItem_ok _ _ _ hlq
    refine ⟨?_, by simp, ⟨aem, eem, by simp⟩⟩
    intro k hk
    simp only [chavesFixas, List.mem_cons, List.not_mem_nil, or_false] at hk
    rcases hk with rfl|rfl|rfl|rfl|rfl|rfl|rfl|rfl|rfl|rfl|rfl|rfl|rfl|rfl|rfl|rfl|rfl|rfl|rfl|rfl|rfl|rfl|rfl|rfl|rfl|rfl|rfl <;>
      simp [h₁, h₂, h₃, h₄, h₅, h₆, h₇, h₈, h₉, h₁₀, h₁₁, h₁₂, h₁₃, h₁₄,
            h₁₅, h₁₆, h₁₇, h₁₈, h₁₉, ed₁, ed₂, ed₃, eem, ecc, ecd, elc, elq]
  · intro d₁ d₂ d₃ em cc cd lc lq cs qs
      hd₁ hf₁ hn₁ hd₂ hf₂ hn₂ hd₃ hf₃ hn₃ hem hcc hcd hlc hlq hcs hqs
    have hA := format_cnpj_info_unfold resultado
      v₁ v₂ v₃ v₄ v₅ v₆ v₇ v₈ v₉ v₁₀ v₁₁ v₁₂ v₁₃ v₁₄ v₁₅ v₁₆ v₁₇ v₁₈ v₁₉
      em cc cd _ _ _ _ _
      h₁ h₂ h₃ h₄ h₅ h₆ h₇ h₈ h₉ h₁₀ h₁₁ h₁₂ h₁₃ h₁₄ h₁₅ h₁₆ h₁₇ h₁₈ h₁₉
      (contato1_skip resultado d₁ hd₁ hf₁)
      (contato2_skip resultado d₂ hd₂ hf₂)
      (contato3_skip resultado d₃ hd₃ hf₃)
      hem hcc hcd
      (atividadesSecundarias_eq resultado lc cs hlc hcs)
      (quadroSocietario_eq resultado lq qs hlq hqs)
    simpa using hA
  · intro socio l₁ l₂ l₃ em cc cd lc cs
      hc1 hc2 hc3 hem hcc hcd hlc hcs hlq sn st sd sq sen s₁ s₂ s₃ s₄ s₅ hfx
    have herr := formatSocio_semFaixa socio sn st sd sq sen s₁ s₂ s₃ s₄ s₅ hfx
    have herr₂ := formatSocios_one_err socio _ herr
    have hq := quadroSocietario_err resultado (.arr [socio]) _ hlq rfl herr₂
    exact format_cnpj_info_qsaErr resultado
      v₁ v₂ v₃ v₄ v₅ v₆ v₇ v₈ v₉ v₁₀ v₁₁ v₁₂ v₁₃ v₁₄ v₁₅ v₁₆ v₁₇ v₁₈ v₁₉
      em cc cd _ _ _ _ _
      h₁ h₂ h₃ h₄ h₅ h₆ h₇ h₈ h₉ h₁₀ h₁₁ h₁₂ h₁₃ h₁₄ h₁₅ h₁₆ h₁₇ h₁₈ h₁₉
      hc1 hc2 hc3 hem hcc hcd
      (atividadesSecundarias_eq resultado lc cs hlc hcs)
      hq

/-- Witness for the amended C10: with `telefone1` absent and a truthy
`ddd1`, the formatter raises `KeyError` for `telefone1`. -/
theorem claim10_witness :
    format_cnpj_info exemploSemTelefone1Ddd = .error (.keyError "telefone1") :=
  (((claim10_required_keys exemploSemTelefone1Ddd rfl rfl rfl rfl rfl rfl rfl rfl rfl
    rfl rfl rfl rfl rfl rfl rfl rfl rfl rfl).2.2.2.1
    (.str "11") rfl rfl).1 rfl)


/-- Witness for C5 at a concrete result whose first contact pair is
non-empty, whose second pair is empty and whose fax pair has an empty
number. -/
theorem claim5_witness :
    format_cnpj_info exemploC5 = .ok
      ["\nInformações Básicas:", "CNPJ: 42.515.236/0001-00",
       "Razão Social: EXEMPLO LTDA", "Nome Fantasia: EXEMPLO",
       "Natureza Jurídica: Sociedade Empresária Limitada",
       "Capital Social: R$ 1.000,00", "Porte: Microempresa",
       "Matriz/Filial: Matriz", "Situação Cadastral: Ativa",
       "Data da Situação: 2021-07-20", "Motivo da Situação: Sem motivo",
       "Data de Abertura: 2021-07-20", "\nEndereço:",
       "Tipo de Logradouro: Rua", "Logradouro: das Flores", "Número: 100",
       "Complemento: Sala 1", "Bairro: Centro", "Cidade: São Paulo",
       "UF: SP", "CEP: 01000-000", "\nContato:", "DDD: 11",
       "Telefone: 5555-0001", "Email: contato@exemplo.com",
       "\nAtividade Principal:", "Código CNAE: 4721-1/02",
       "Descrição CNAE: Padaria e confeitaria"] :=
  (claim5_contact_pairs exemploC5 rfl rfl rfl rfl rfl rfl rfl rfl rfl rfl
    rfl rfl rfl rfl rfl rfl rfl rfl rfl rfl rfl rfl rfl rfl rfl rfl rfl
    rfl rfl rfl rfl rfl).1

/-- Witness for C6 at a concrete result with exactly one secondary
activity. -/
theorem claim6_witness :
    format_cnpj_info exemploC6 = .ok
      ["\nInformações Básicas:", "CNPJ: 42.515.236/0001-00",
       "Razão Social: EXEMPLO LTDA", "Nome Fantasia: EXEMPLO",
       "Natureza Jurídica: Sociedade Empresária Limitada",
       "Capital Social: R$ 1.000,00", "Porte: Microempresa",
       "Matriz/Filial: Matriz", "Situação Cadastral: Ativa",
       "Data da Situação: 2021-07-20", "Motivo da Situação: Sem motivo",
       "Data de Abertura: 2021-07-20", "\nEndereço:",
       "Tipo de Logradouro: Rua", "Logradouro: das Flores", "Número: 100",
       "Complemento: Sala 1", "Bairro: Centro", "Cidade: São Paulo",
       "UF: SP", "CEP: 01000-000", "\nContato:",
       "Email: contato@exemplo.com", "\nAtividade Principal:",
       "Código CNAE: 4721-1/02", "Descrição CNAE: Padaria e confeitaria",
       "\nAtividades Secundárias:", "Código: 5611-2/01",
       "Descrição: Restaurante"] :=
  (claim6_secondary_activities exemploC6 rfl rfl rfl rfl rfl rfl rfl rfl
    rfl rfl rfl rfl rfl rfl rfl rfl rfl rfl rfl rfl rfl rfl rfl rfl rfl
    rfl rfl rfl rfl rfl rfl).2
    entradaCnae (.str "5611-2/01") (.str "Restaurante") rfl rfl rfl

/-- Counterexample to C8: an ownership entry from which the
`faixa_etaria_qsa_descricao` key is absent is not formatted without the
age-bracket line — the truthiness test accesses the key unconditionally,
so `format_cnpj_info` raises `KeyError` instead. -/
theorem claim8_counterexample :
    socioSemFaixa.getKey? "faixa_etaria_qsa_descricao" = none ∧
    exemploSemFaixa.getKey? "lista_qsa" = some (.arr [socioSemFaixa]) ∧
    format_cnpj_info exemploSemFaixa =
      .error (.keyError "faixa_etaria_qsa_descricao") :=
  ⟨rfl, rfl, rfl⟩

/-- Witness for the amended C8 at a concrete result whose single
ownership entry carries a truthy age bracket. -/
theorem claim8_witness :
    format_cnpj_info exemploC8 = .ok
      ["\nInformações Básicas:", "CNPJ: 42.515.236/0001-00",
       "Razão Social: EXEMPLO LTDA", "Nome Fantasia: EXEMPLO",
       "Natureza Jurídica: Sociedade Empresária Limitada",
       "Capital Social: R$ 1.000,00", "Porte: Microempresa",
       "Matriz/Filial: Matriz", "Situação Cadastral: Ativa",
       "Data da Situação: 2021-07-20", "Motivo da Situação: Sem motivo",
       "Data de Abertura: 2021-07-20", "\nEndereço:",
       "Tipo de Logradouro: Rua", "Logradouro: das Flores", "Número: 100",
       "Complemento: Sala 1", "Bairro: Centro", "Cidade: São Paulo",
       "UF: SP", "CEP: 01000-000", "\nContato:",
       "Email: contato@exemplo.com", "\nAtividade Principal:",
       "Código CNAE: 4721-1/02", "Descrição CNAE: Padaria e confeitaria",
       "\nQuadro Societário:", "\nSócio: MARIA DA SILVA",
       "Tipo: Pessoa Física", "CPF/CNPJ: ***.111.222-**",
       "Qualificação: Sócio-Administrador", "Data de Entrada: 2020-01-01",
       "Faixa Etária: 31 a 40 anos"] :=
  (claim8_age_bracket exemploC8 socioComFaixa rfl rfl rfl rfl rfl rfl rfl
    rfl rfl rfl rfl rfl rfl rfl rfl rfl rfl rfl rfl rfl rfl rfl rfl rfl
    rfl rfl rfl rfl rfl rfl rfl rfl rfl rfl rfl rfl).1
    (.str "31 a 40 anos") rfl

/-- Counterexample to C10: a result from which `telefone1` is absent
while `ddd1` is present and empty formats without any error — Python's
short-circuiting `and` never accesses `telefone1` — and the `Contato:`
header and `Email` line are still printed.  A missing companion number
key therefore does not always raise. -/
theorem claim10_counterexample :
    exemploSemTelefone1.getKey? "telefone1" = none ∧
    exemploSemTelefone1.getKey? "ddd1" = some (.str "") ∧
    format_cnpj_info exemploSemTelefone1 = .ok
      ["\nInformações Básicas:", "CNPJ: 42.515.236/0001-00",
       "Razão Social: EXEMPLO LTDA", "Nome Fantasia: EXEMPLO",
       "Natureza Jurídica: Sociedade Empresária Limitada",
       "Capital Social: R$ 1.000,00", "Porte: Microempresa",
       "Matriz/Filial: Matriz", "Situação Cadastral: Ativa",
       "Data da Situação: 2021-07-20", "Motivo da Situação: Sem motivo",
       "Data de Abertura: 2021-07-20", "\nEndereço:",
       "Tipo de Logradouro: Rua", "Logradouro: das Flores", "Número: 100",
       "Complemento: Sala 1", "Bairro: Centro", "Cidade: São Paulo",
       "UF: SP", "CEP: 01000-000", "\nContato:",
       "Email: contato@exemplo.com", "\nAtividade Principal:",
       "Código CNAE: 4721-1/02",
       "Descrição CNAE: Padaria e confeitaria"] :=
  ⟨rfl, rfl, rfl⟩
